import Mathlib

/-!
Budget Buddy serverless API (Go): request pipeline and route handlers

A shallow embedding of `api/go/lib/helpers.go`, `api/go/lib/types.go`, the route
files `transactions.go`, `budgets.go`, `analytics.go`, `users.go`, and the two probes
`health.go` and `index.go`.

Conventions of the embedding

* `http.ResponseWriter` is explicit state (`ResponseWriter`), threaded through
  every function that receives `w`.  The writer follows `net/http`: the first
  `WriteHeader` fixes the status line and the headers sent with it, later calls
  are ignored, and a `Write` before any `WriteHeader` sends status 200.
* A Go pointer `*User` is an `Option User` (`none` is the nil pointer).  A
  handler that dereferences a nil pointer panics; a panicking handler produces
  no result (`none`).
* `float64` fields hold values decoded from JSON numbers or literals; they are
  only compared with zero and echoed, so they are modelled by rationals.
* The values of the query parameters are byte strings (`GoString`), because the
  handlers write them into their answers and `encoding/json` writes U+FFFD for the
  bytes that are not valid UTF-8.  The other strings of a request are only compared
  with constants or split at spaces, and are texts.
* The standard library pieces `encoding/json` (decoding a body), `strconv.Atoi`
  and `time.Now` are parameters, collected in `Env`; what `health.go` reads from the
  Go runtime is collected in `HealthEnv`.
* A `map[string]interface{}` literal is written as a JSON object with its keys
  in sorted order, the order in which `encoding/json` emits map keys.
-/

namespace BudgetBuddy

/-! ## JSON values -/

/-- JSON documents: what `encoding/json` writes, and what it decodes into `interface{}`. -/
inductive Json where
  | null : Json
  | bool : Bool → Json
  | num : ℚ → Json
  | str : String → Json
  | arr : List Json → Json
  | obj : List (String × Json) → Json

namespace Json

/-- The nil test used by `omitempty` on an `interface{}` field. -/
def isNull : Json → Bool
  | null => true
  | _ => false

/-- Value of a top-level field of an object, first occurrence. -/
def field (key : String) : Json → Option Json
  | obj kvs => (kvs.find? (fun kv => kv.1 == key)).map (fun kv => kv.2)
  | _ => none

/-- Whether the document is a string with the given content. -/
def isStr (s : String) : Json → Bool
  | str t => t == s
  | _ => false

/-- Whether the document is a boolean. -/
def isBool : Json → Bool
  | bool _ => true
  | _ => false

end Json

/-! ## lib/types.go -/

/-- Input for creating a transaction (`lib.CreateTransactionInput`); `Type_` is the
field `Type`, a reserved word here. -/
structure CreateTransactionInput where
  Amount : ℚ
  Category : String
  Type_ : String
  Description : String
  Date : String
  Merchant : String
  PaymentMethod : String

/-- Input for creating a budget (`lib.CreateBudgetInput`). -/
structure CreateBudgetInput where
  Category : String
  Amount : ℚ
  Period : String
  StartDate : String
  EndDate : String
  AlertThreshold : Int

/-- Input for updating a profile (`lib.UpdateProfileInput`). -/
structure UpdateProfileInput where
  FullName : String
  PreferredCurrency : String
  Timezone : String
  PreferredLanguage : String
  NotificationSettings : List (String × Json)
  ThemePreference : String

/-- Financial analytics summary (`lib.AnalyticsSummary`). -/
structure AnalyticsSummary where
  TotalIncome : ℚ
  TotalExpenses : ℚ
  NetSavings : ℚ
  SavingsRate : ℚ
  TransactionCount : Int

/-- Category breakdown entry (`lib.CategoryAnalytics`). -/
structure CategoryAnalytics where
  Category : String
  Income : ℚ
  Expenses : ℚ
  Transactions : Int

/-- Trend entry (`lib.TrendData`). -/
structure TrendData where
  Month : String
  Income : ℚ
  Expenses : ℚ
  Net : ℚ

/-- JSON encoding of `lib.AnalyticsSummary`, by its field tags. -/
def AnalyticsSummary.toJson (s : AnalyticsSummary) : Json :=
  Json.obj [("totalIncome", Json.num s.TotalIncome),
            ("totalExpenses", Json.num s.TotalExpenses),
            ("netSavings", Json.num s.NetSavings),
            ("savingsRate", Json.num s.SavingsRate),
            ("transactionCount", Json.num s.TransactionCount)]

/-- JSON encoding of `lib.CategoryAnalytics`, by its field tags. -/
def CategoryAnalytics.toJson (c : CategoryAnalytics) : Json :=
  Json.obj [("category", Json.str c.Category),
            ("income", Json.num c.Income),
            ("expenses", Json.num c.Expenses),
            ("transactions", Json.num c.Transactions)]

/-- JSON encoding of `lib.TrendData`, by its field tags. -/
def TrendData.toJson (t : TrendData) : Json :=
  Json.obj [("month", Json.str t.Month),
            ("income", Json.num t.Income),
            ("expenses", Json.num t.Expenses),
            ("net", Json.num t.Net)]

/-! ## lib/helpers.go: data -/

/-- The standard API response (`lib.Response`). -/
structure Response where
  Success : Bool
  Data : Json
  Error : String
  Details : Json
  Timestamp : String

/-- JSON encoding of `lib.Response`: `data`, `error` and `details` carry `omitempty`. -/
def Response.toJson (p : Response) : Json :=
  Json.obj
    ([("success", Json.bool p.Success)]
      ++ (if p.Data.isNull then [] else [("data", p.Data)])
      ++ (if p.Error = "" then [] else [("error", Json.str p.Error)])
      ++ (if p.Details.isNull then [] else [("details", p.Details)])
      ++ [("timestamp", Json.str p.Timestamp)])

/-- An authenticated user (`lib.User`). -/
structure User where
  ID : String
  Email : String
  deriving DecidableEq, Repr

/-- Handler configuration (`lib.Config`). -/
structure Config where
  RequireAuth : Bool
  AllowedMethods : List String
  EnableCORS : Bool
  deriving DecidableEq, Repr

/-- An authentication error (`lib.AuthError`). -/
structure AuthError where
  Message : String
  deriving DecidableEq, Repr

/-! ### Byte strings

A Go `string` is a sequence of bytes.  The strings of a request that reach the JSON
encoder, the values of the query parameters, are modelled as such; `encoding/json`
writes a string as text, reading it rune by rune with `utf8.DecodeRuneInString` and
writing U+FFFD for every byte that starts no valid encoding. -/

/-- A Go string as its bytes (numbers below 256). -/
abbrev GoString := List Nat

/-- The bytes `utf8.AppendRune` writes for a rune. -/
def utf8EncodeChar (c : Char) : List Nat :=
  if c.toNat < 0x80 then [c.toNat]
  else if c.toNat < 0x800 then [0xC0 + c.toNat / 64, 0x80 + c.toNat % 64]
  else if c.toNat < 0x10000 then
    [0xE0 + c.toNat / 4096, 0x80 + c.toNat / 64 % 64, 0x80 + c.toNat % 64]
  else
    [0xF0 + c.toNat / 262144, 0x80 + c.toNat / 4096 % 64, 0x80 + c.toNat / 64 % 64,
      0x80 + c.toNat % 64]

/-- The bytes of a text. -/
def utf8Encode : List Char → List Nat
  | [] => []
  | c :: cs => utf8EncodeChar c ++ utf8Encode cs

/-- The Go string constant written with the given text. -/
def goString (s : String) : GoString := utf8Encode s.data

/-- The rune and the width `utf8.DecodeRune` returns at the byte `b0` followed by
`rest`: the rune of the shortest-form encoding that starts there, or `RuneError`
(U+FFFD) with width 1 when no valid encoding starts there. -/
def decodeRune (b0 : Nat) (rest : List Nat) : Nat × Nat :=
  if b0 < 0x80 then (b0, 1)
  else if b0 < 0xC2 then (0xFFFD, 1)
  else if b0 ≤ 0xDF then
    match rest with
    | b1 :: _ =>
      if 0x80 ≤ b1 ∧ b1 ≤ 0xBF then (b0 % 32 * 64 + b1 % 64, 2) else (0xFFFD, 1)
    | [] => (0xFFFD, 1)
  else if b0 ≤ 0xEF then
    match rest with
    | b1 :: b2 :: _ =>
      if (if b0 = 0xE0 then 0xA0 else 0x80) ≤ b1 ∧ b1 ≤ (if b0 = 0xED then 0x9F else 0xBF)
          ∧ 0x80 ≤ b2 ∧ b2 ≤ 0xBF then
        (b0 % 16 * 4096 + b1 % 64 * 64 + b2 % 64, 3)
      else (0xFFFD, 1)
    | _ => (0xFFFD, 1)
  else if b0 ≤ 0xF4 then
    match rest with
    | b1 :: b2 :: b3 :: _ =>
      if (if b0 = 0xF0 then 0x90 else 0x80) ≤ b1 ∧ b1 ≤ (if b0 = 0xF4 then 0x8F else 0xBF)
          ∧ 0x80 ≤ b2 ∧ b2 ≤ 0xBF ∧ 0x80 ≤ b3 ∧ b3 ≤ 0xBF then
        (b0 % 8 * 262144 + b1 % 64 * 4096 + b2 % 64 * 64 + b3 % 64, 4)
      else (0xFFFD, 1)
    | _ => (0xFFFD, 1)
  else (0xFFFD, 1)

/-- The loop of the string encoder of `encoding/json` over the bytes: at a byte that
is not skipped it decodes a rune, writes it, and skips the other bytes of its
encoding. -/
def jsonTextAux : Nat → List Nat → List Char
  | _, [] => []
  | skip + 1, _ :: rest => jsonTextAux skip rest
  | 0, b0 :: rest =>
    Char.ofNat (decodeRune b0 rest).1 :: jsonTextAux ((decodeRune b0 rest).2 - 1) rest

/-- The text `encoding/json` writes for a Go string. -/
def jsonText (v : GoString) : String := String.mk (jsonTextAux 0 v)

/-- The method `Values.Get` of `url.Values`: first value of the key, or the empty
string. -/
def queryGet (m : String → List GoString) (key : String) : GoString :=
  match m key with
  | [] => []
  | v :: _ => v

/-- The part of `*http.Request` the handlers read.  `Header` and `Query` are the
maps `r.Header` and `r.URL.Query()` (a key that is absent has no values); the query
values are byte strings, since the handlers write them into their answers;
`ctxUser` is the value stored in the request context under `UserContextKey`
when it is a `*User` (`none` when the key is unset, `some none` for a nil
pointer). -/
structure Request where
  Method : String
  Header : String → List String
  Query : String → List GoString
  Body : String
  ctxUser : Option (Option User)

/-- The method `Header.Get`: first value of the key, or the empty string. -/
def valuesGet (m : String → List String) (key : String) : String :=
  match m key with
  | [] => ""
  | v :: _ => v

/-- A decoded `map[string]interface{}` is an association list read by first match;
`mapIndex m key` is the Go index expression `m[key]`, `none` for the nil interface of
a key that is not in the map. -/
def mapIndex (m : List (String × Json)) (key : String) : Option Json :=
  (m.find? (fun kv => kv.1 == key)).map (fun kv => kv.2)

/-- Library behaviour the handlers depend on. -/
structure Env where
  now : String
  Atoi : GoString → Int
  decodeTransactionInput : String → Except String CreateTransactionInput
  decodeBudgetInput : String → Except String CreateBudgetInput
  decodeProfileInput : String → Except String UpdateProfileInput
  decodeMap : String → Except String (List (String × Json))

/-! ## The response writer -/

/-- State of an `http.ResponseWriter`: the header map, the status line once it is
written, the headers that went out with it, and the documents written to the body. -/
structure ResponseWriter where
  header : List (String × String)
  status : Option Nat
  sent : List (String × String)
  body : List Json

/-- What the client receives. -/
structure HttpResponse where
  status : Nat
  header : List (String × String)
  body : List Json

namespace ResponseWriter

/-- The writer the server hands to a handler. -/
def fresh : ResponseWriter :=
  { header := [], status := none, sent := [], body := [] }

/-- Effect of `w.Header().Set(key, value)`. -/
def SetHeader (w : ResponseWriter) (key value : String) : ResponseWriter :=
  { w with header := (key, value) :: w.header.filter (fun kv => kv.1 != key) }

/-- Effect of `w.WriteHeader(code)`: only the first call has an effect. -/
def WriteHeader (w : ResponseWriter) (code : Nat) : ResponseWriter :=
  match w.status with
  | some _ => w
  | none => { w with status := some code, sent := w.header }

/-- Effect of writing one encoded document: an implicit `WriteHeader(200)` when
no status was written yet. -/
def Write (w : ResponseWriter) (doc : Json) : ResponseWriter :=
  let w1 := w.WriteHeader 200
  { w1 with body := w1.body ++ [doc] }

/-- The response as sent when the handler returns. -/
def finish (w : ResponseWriter) : HttpResponse :=
  match w.status with
  | some code => { status := code, header := w.sent, body := w.body }
  | none => { status := 200, header := w.header, body := w.body }

end ResponseWriter

/-- Value of a response header, if present. -/
def headerValue (h : List (String × String)) (key : String) : Option String :=
  (h.find? (fun kv => kv.1 == key)).map (fun kv => kv.2)

/-- The type `http.HandlerFunc`; `none` is a panic. -/
abbrev HandlerFunc := ResponseWriter → Request → Option ResponseWriter

/-! ## lib/helpers.go: functions -/

/-- Sends a success response (`lib.SuccessResponse`). -/
def SuccessResponse (env : Env) (w : ResponseWriter) (data : Json) (status : Nat) :
    ResponseWriter :=
  let w1 := w.SetHeader "Content-Type" "application/json"
  let w2 := w1.WriteHeader status
  w2.Write (Response.toJson
    { Success := true, Data := data, Error := "", Details := Json.null, Timestamp := env.now })

/-- Sends an error response (`lib.ErrorResponse`). -/
def ErrorResponse (env : Env) (w : ResponseWriter) (message : String) (status : Nat)
    (details : Json) : ResponseWriter :=
  let w1 := w.SetHeader "Content-Type" "application/json"
  let w2 := w1.WriteHeader status
  w2.Write (Response.toJson
    { Success := false, Data := Json.null, Error := message, Details := details,
      Timestamp := env.now })

/-- Applies CORS headers to the response (`lib.ApplyCORS`). -/
def ApplyCORS (w : ResponseWriter) : ResponseWriter :=
  let w1 := w.SetHeader "Access-Control-Allow-Origin" "*"
  let w2 := w1.SetHeader "Access-Control-Allow-Methods" "GET, POST, PUT, DELETE, OPTIONS"
  let w3 := w2.SetHeader "Access-Control-Allow-Headers"
    "Content-Type, Authorization, X-Requested-With"
  w3.SetHeader "Access-Control-Allow-Credentials" "true"

/-- Handles OPTIONS preflight requests (`lib.HandleCORSPreflight`). -/
def HandleCORSPreflight (w : ResponseWriter) (r : Request) : ResponseWriter × Bool :=
  if r.Method = "OPTIONS" then
    ((ApplyCORS w).WriteHeader 200, true)
  else
    (w, false)

/-- Checks if the HTTP method is allowed (`lib.ValidateMethod`). -/
def ValidateMethod (env : Env) (w : ResponseWriter) (r : Request) (allowed : List String) :
    ResponseWriter × Bool :=
  if allowed.any (fun method => decide (r.Method = method)) then
    (w, true)
  else
    (ErrorResponse env w "Method not allowed" 405
      (Json.obj [("allowed", Json.arr (allowed.map Json.str))]), false)

/-- Gets a query parameter with a default value (`lib.GetQueryParam`). -/
def GetQueryParam (r : Request) (key : String) (defaultValue : GoString) : GoString :=
  let value := queryGet r.Query key
  if value = goString "" then defaultValue else value

/-- The pieces of a character sequence between occurrences of `sep`. -/
def splitChars (sep : Char) : List Char → List (List Char)
  | [] => [[]]
  | c :: cs =>
    if c = sep then [] :: splitChars sep cs
    else
      match splitChars sep cs with
      | [] => [[c]]
      | p :: ps => (c :: p) :: ps

/-- The call `strings.Split(s, sep)` for a separator of one character. -/
def stringsSplit (s : String) (sep : Char) : List String :=
  (splitChars sep s.data).map String.mk

/-- Validates the authentication token (`lib.AuthenticateRequest`); the Go result
pair `(*User, error)`. -/
def AuthenticateRequest (r : Request) : Option User × Option AuthError :=
  let authHeader := valuesGet r.Header "Authorization"
  if authHeader = "" then
    (none, some { Message := "Missing authorization header" })
  else
    let parts := stringsSplit authHeader ' '
    if parts.length ≠ 2 ∨ parts.head? ≠ some "Bearer" then
      (none, some { Message := "Invalid authorization header format" })
    else
      (some { ID := "user-id", Email := "user@example.com" }, none)

/-- Sets the user in the request context (`lib.SetUserContext`). -/
def SetUserContext (r : Request) (user : Option User) : Request :=
  { r with ctxUser := some user }

/-- Retrieves the user from the request context (`lib.GetUserFromContext`). -/
def GetUserFromContext (r : Request) : Option User × Bool :=
  match r.ctxUser with
  | some user => (user, true)
  | none => (none, false)

/-- Creates a wrapped handler with middleware (`lib.CreateHandler`). -/
def CreateHandler (env : Env) (handler : HandlerFunc) (config : Config) : HandlerFunc :=
  fun w r =>
    let afterCORS : ResponseWriter × Bool :=
      if config.EnableCORS then HandleCORSPreflight (ApplyCORS w) r else (w, false)
    if afterCORS.2 then some afterCORS.1
    else
      let afterMethod : ResponseWriter × Bool :=
        if config.AllowedMethods.length > 0 then
          ValidateMethod env afterCORS.1 r config.AllowedMethods
        else (afterCORS.1, true)
      if !afterMethod.2 then some afterMethod.1
      else if config.RequireAuth then
        match AuthenticateRequest r with
        | (_, some _) => some (ErrorResponse env afterMethod.1 "Unauthorized" 401 Json.null)
        | (user, none) => handler afterMethod.1 (SetUserContext r user)
      else
        handler afterMethod.1 r

/-! ## transactions.go -/

namespace transactions

/-- The configuration built in `Handler`. -/
def config : Config :=
  { RequireAuth := true, AllowedMethods := ["GET", "POST", "PUT", "DELETE"], EnableCORS := true }

/-- The mock rows of `handleGetTransactions`, with the two fields the filter reads. -/
def mockTransactions (userID : String) : List (String × String × Json) :=
  [("expense", "Groceries",
    Json.obj [("amount", Json.num (201 / 2)),
              ("category", Json.str "Groceries"),
              ("date", Json.str "2024-01-15T10:00:00Z"),
              ("description", Json.str "Weekly shopping"),
              ("id", Json.str "trans-1"),
              ("type", Json.str "expense"),
              ("user_id", Json.str userID)])]

/-- Lists the transactions (`handleGetTransactions`). -/
def handleGetTransactions (env : Env) (w : ResponseWriter) (r : Request)
    (user : Option User) : Option ResponseWriter :=
  let limitStr := GetQueryParam r "limit" (goString "50")
  let offsetStr := GetQueryParam r "offset" (goString "0")
  let transactionType := GetQueryParam r "type" (goString "")
  let category := GetQueryParam r "category" (goString "")
  let limit := env.Atoi limitStr
  let offset := env.Atoi offsetStr
  match user with
  | none => none
  | some u =>
    let filtered := (mockTransactions u.ID).filter (fun t =>
      !(transactionType != goString "" && goString t.1 != transactionType)
        && !(category != goString "" && goString t.2.1 != category))
    let filteredJson : Json :=
      if filtered.isEmpty then Json.null else Json.arr (filtered.map (fun t => t.2.2))
    let summary := Json.obj [("count", Json.num filtered.length),
                             ("totalExpenses", Json.num (201 / 2)),
                             ("totalIncome", Json.num 0)]
    let response := Json.obj
      [("pagination", Json.obj [("hasMore", Json.bool false),
                                ("limit", Json.num limit),
                                ("offset", Json.num offset),
                                ("total", Json.num filtered.length)]),
       ("summary", summary),
       ("transactions", filteredJson)]
    some (SuccessResponse env w response 200)

/-- Creates a transaction (`handleCreateTransaction`). -/
def handleCreateTransaction (env : Env) (w : ResponseWriter) (r : Request)
    (user : Option User) : Option ResponseWriter :=
  match env.decodeTransactionInput r.Body with
  | .error err =>
    some (ErrorResponse env w "Invalid JSON body" 400 (Json.obj [("error", Json.str err)]))
  | .ok input =>
    if input.Amount ≤ 0 then
      some (ErrorResponse env w "Amount must be positive" 400 Json.null)
    else if input.Category = "" then
      some (ErrorResponse env w "Category is required" 400 Json.null)
    else if input.Type_ ≠ "income" ∧ input.Type_ ≠ "expense" then
      some (ErrorResponse env w "Type must be 'income' or 'expense'" 400 Json.null)
    else
      match user with
      | none => none
      | some u =>
        let transaction := Json.obj
          [("amount", Json.num input.Amount),
           ("category", Json.str input.Category),
           ("created_at", Json.str "2024-01-15T10:00:00Z"),
           ("date", Json.str input.Date),
           ("description", Json.str input.Description),
           ("id", Json.str "trans-new"),
           ("merchant", Json.str input.Merchant),
           ("payment_method", Json.str input.PaymentMethod),
           ("type", Json.str input.Type_),
           ("user_id", Json.str u.ID)]
        some (SuccessResponse env w (Json.obj [("transaction", transaction)]) 201)

/-- Updates a transaction (`handleUpdateTransaction`). -/
def handleUpdateTransaction (env : Env) (w : ResponseWriter) (r : Request)
    (user : Option User) : Option ResponseWriter :=
  let id := GetQueryParam r "id" (goString "")
  if id = goString "" then
    some (ErrorResponse env w "Transaction ID required" 400 Json.null)
  else
    match env.decodeMap r.Body with
    | .error _ => some (ErrorResponse env w "Invalid JSON body" 400 Json.null)
    | .ok _ =>
      match user with
      | none => none
      | some u =>
        let transaction := Json.obj
          [("id", Json.str (jsonText id)), ("updated", Json.bool true),
           ("user_id", Json.str u.ID)]
        some (SuccessResponse env w (Json.obj [("transaction", transaction)]) 200)

/-- Deletes a transaction (`handleDeleteTransaction`). -/
def handleDeleteTransaction (env : Env) (w : ResponseWriter) (r : Request)
    (_user : Option User) : Option ResponseWriter :=
  let id := GetQueryParam r "id" (goString "")
  if id = goString "" then
    some (ErrorResponse env w "Transaction ID required" 400 Json.null)
  else
    some (SuccessResponse env w
      (Json.obj [("id", Json.str (jsonText id)),
                 ("message", Json.str "Transaction deleted successfully")]) 200)

/-- The business handler of the route (`transactionHandler`). -/
def transactionHandler (env : Env) : HandlerFunc :=
  fun w r =>
    match GetUserFromContext r with
    | (_, false) => some (ErrorResponse env w "Unauthorized" 401 Json.null)
    | (user, true) =>
      if r.Method = "GET" then handleGetTransactions env w r user
      else if r.Method = "POST" then handleCreateTransaction env w r user
      else if r.Method = "PUT" then handleUpdateTransaction env w r user
      else if r.Method = "DELETE" then handleDeleteTransaction env w r user
      else some (ErrorResponse env w "Method not allowed" 405 Json.null)

/-- The entry point of the route (`Handler`). -/
def Handler (env : Env) : HandlerFunc :=
  CreateHandler env (transactionHandler env) config

end transactions

/-! ## budgets.go -/

namespace budgets

/-- The configuration built in `Handler`. -/
def config : Config :=
  { RequireAuth := true, AllowedMethods := ["GET", "POST", "PUT", "DELETE"], EnableCORS := true }

/-- Lists the budgets (`handleGetBudgets`). -/
def handleGetBudgets (env : Env) (w : ResponseWriter) (r : Request)
    (user : Option User) : Option ResponseWriter :=
  let period := GetQueryParam r "period" (goString "monthly")
  match user with
  | none => none
  | some u =>
    let budgets := Json.arr
      [Json.obj [("alert_threshold", Json.num 80),
                 ("amount", Json.num 500),
                 ("category", Json.str "Groceries"),
                 ("created_at", Json.str "2024-01-01T00:00:00Z"),
                 ("id", Json.str "budget-1"),
                 ("period", Json.str (jsonText period)),
                 ("user_id", Json.str u.ID)]]
    some (SuccessResponse env w (Json.obj [("budgets", budgets)]) 200)

/-- Creates a budget (`handleCreateBudget`). -/
def handleCreateBudget (env : Env) (w : ResponseWriter) (r : Request)
    (user : Option User) : Option ResponseWriter :=
  match env.decodeBudgetInput r.Body with
  | .error _ => some (ErrorResponse env w "Invalid JSON body" 400 Json.null)
  | .ok input =>
    if input.Category = "" then
      some (ErrorResponse env w "Category is required" 400 Json.null)
    else if input.Amount ≤ 0 then
      some (ErrorResponse env w "Amount must be positive" 400 Json.null)
    else if input.Period ≠ "weekly" ∧ input.Period ≠ "monthly" ∧ input.Period ≠ "yearly" then
      some (ErrorResponse env w "Period must be 'weekly', 'monthly', or 'yearly'" 400 Json.null)
    else
      match user with
      | none => none
      | some u =>
        let budget := Json.obj
          [("alert_threshold", Json.num input.AlertThreshold),
           ("amount", Json.num input.Amount),
           ("category", Json.str input.Category),
           ("created_at", Json.str "2024-01-15T10:00:00Z"),
           ("id", Json.str "budget-new"),
           ("period", Json.str input.Period),
           ("user_id", Json.str u.ID)]
        some (SuccessResponse env w (Json.obj [("budget", budget)]) 201)

/-- Updates a budget (`handleUpdateBudget`). -/
def handleUpdateBudget (env : Env) (w : ResponseWriter) (r : Request)
    (user : Option User) : Option ResponseWriter :=
  let id := GetQueryParam r "id" (goString "")
  if id = goString "" then
    some (ErrorResponse env w "Budget ID required" 400 Json.null)
  else
    match env.decodeMap r.Body with
    | .error _ => some (ErrorResponse env w "Invalid JSON body" 400 Json.null)
    | .ok _ =>
      match user with
      | none => none
      | some u =>
        let budget := Json.obj
          [("id", Json.str (jsonText id)), ("updated", Json.bool true),
           ("user_id", Json.str u.ID)]
        some (SuccessResponse env w (Json.obj [("budget", budget)]) 200)

/-- Deletes a budget (`handleDeleteBudget`). -/
def handleDeleteBudget (env : Env) (w : ResponseWriter) (r : Request)
    (_user : Option User) : Option ResponseWriter :=
  let id := GetQueryParam r "id" (goString "")
  if id = goString "" then
    some (ErrorResponse env w "Budget ID required" 400 Json.null)
  else
    some (SuccessResponse env w
      (Json.obj [("id", Json.str (jsonText id)),
                 ("message", Json.str "Budget deleted successfully")]) 200)

/-- The business handler of the route (`budgetHandler`). -/
def budgetHandler (env : Env) : HandlerFunc :=
  fun w r =>
    match GetUserFromContext r with
    | (_, false) => some (ErrorResponse env w "Unauthorized" 401 Json.null)
    | (user, true) =>
      if r.Method = "GET" then handleGetBudgets env w r user
      else if r.Method = "POST" then handleCreateBudget env w r user
      else if r.Method = "PUT" then handleUpdateBudget env w r user
      else if r.Method = "DELETE" then handleDeleteBudget env w r user
      else some (ErrorResponse env w "Method not allowed" 405 Json.null)

/-- The entry point of the route (`Handler`). -/
def Handler (env : Env) : HandlerFunc :=
  CreateHandler env (budgetHandler env) config

end budgets

/-! ## analytics.go -/

namespace analytics

/-- The configuration built in `Handler`. -/
def config : Config :=
  { RequireAuth := true, AllowedMethods := ["GET"], EnableCORS := true }

/-- The summary value built in `handleSummaryAnalytics`. -/
def summary : AnalyticsSummary :=
  { TotalIncome := 5000, TotalExpenses := 3000, NetSavings := 2000, SavingsRate := 40,
    TransactionCount := 150 }

/-- The category rows built in `handleCategoryAnalytics`. -/
def categories : List CategoryAnalytics :=
  [{ Category := "Groceries", Income := 0, Expenses := 500, Transactions := 12 },
   { Category := "Salary", Income := 5000, Expenses := 0, Transactions := 1 }]

/-- The trend rows built in `handleTrendAnalytics`. -/
def trend : List TrendData :=
  [{ Month := "2024-01", Income := 5000, Expenses := 3000, Net := 2000 },
   { Month := "2024-02", Income := 5200, Expenses := 2800, Net := 2400 }]

/-- Answers the summary (`handleSummaryAnalytics`). -/
def handleSummaryAnalytics (env : Env) (w : ResponseWriter) (_user : Option User) :
    Option ResponseWriter :=
  some (SuccessResponse env w (Json.obj [("summary", summary.toJson)]) 200)

/-- Answers the category breakdown (`handleCategoryAnalytics`). -/
def handleCategoryAnalytics (env : Env) (w : ResponseWriter) (_user : Option User) :
    Option ResponseWriter :=
  some (SuccessResponse env w
    (Json.obj [("categories", Json.arr (categories.map CategoryAnalytics.toJson))]) 200)

/-- Answers the monthly trend (`handleTrendAnalytics`). -/
def handleTrendAnalytics (env : Env) (w : ResponseWriter) (_user : Option User) :
    Option ResponseWriter :=
  some (SuccessResponse env w
    (Json.obj [("trend", Json.arr (trend.map TrendData.toJson))]) 200)

/-- The business handler of the route (`analyticsHandler`). -/
def analyticsHandler (env : Env) : HandlerFunc :=
  fun w r =>
    match GetUserFromContext r with
    | (_, false) => some (ErrorResponse env w "Unauthorized" 401 Json.null)
    | (user, true) =>
      let analyticsType := GetQueryParam r "type" (goString "summary")
      if analyticsType = goString "summary" then handleSummaryAnalytics env w user
      else if analyticsType = goString "category" then handleCategoryAnalytics env w user
      else if analyticsType = goString "trend" then handleTrendAnalytics env w user
      else
        some (ErrorResponse env w "Invalid analytics type" 400
          (Json.obj [("allowed",
            Json.arr [Json.str "summary", Json.str "category", Json.str "trend"])]))

/-- The entry point of the route (`Handler`). -/
def Handler (env : Env) : HandlerFunc :=
  CreateHandler env (analyticsHandler env) config

end analytics

/-! ## users.go -/

namespace users

/-- The configuration built in `Handler`. -/
def config : Config :=
  { RequireAuth := true, AllowedMethods := ["GET", "PUT", "DELETE"], EnableCORS := true }

/-- Answers the profile (`handleGetProfile`). -/
def handleGetProfile (env : Env) (w : ResponseWriter) (user : Option User) :
    Option ResponseWriter :=
  match user with
  | none => none
  | some u =>
    let profile := Json.obj
      [("created_at", Json.str "2024-01-01T00:00:00Z"),
       ("email", Json.str u.Email),
       ("full_name", Json.str "John Doe"),
       ("id", Json.str u.ID),
       ("preferred_currency", Json.str "USD"),
       ("preferred_language", Json.str "en"),
       ("theme_preference", Json.str "dark"),
       ("timezone", Json.str "America/New_York")]
    some (SuccessResponse env w (Json.obj [("profile", profile)]) 200)

/-- Updates the profile (`handleUpdateProfile`). -/
def handleUpdateProfile (env : Env) (w : ResponseWriter) (r : Request)
    (user : Option User) : Option ResponseWriter :=
  match env.decodeProfileInput r.Body with
  | .error _ => some (ErrorResponse env w "Invalid JSON body" 400 Json.null)
  | .ok _ =>
    match user with
    | none => none
    | some u =>
      let profile := Json.obj [("id", Json.str u.ID), ("updated", Json.bool true)]
      some (SuccessResponse env w
        (Json.obj [("message", Json.str "Profile updated successfully"),
                   ("profile", profile)]) 200)

/-- The map index `input[key]` followed by the type assertion `.(bool)`. -/
def boolAt (input : List (String × Json)) (key : String) : Bool × Bool :=
  match mapIndex input key with
  | some (Json.bool b) => (b, true)
  | _ => (false, false)

/-- Deletes the account (`handleDeleteAccount`). -/
def handleDeleteAccount (env : Env) (w : ResponseWriter) (r : Request)
    (_user : Option User) : Option ResponseWriter :=
  match env.decodeMap r.Body with
  | .error _ => some (ErrorResponse env w "Invalid JSON body" 400 Json.null)
  | .ok input =>
    let (confirm, ok) := boolAt input "confirm"
    if !ok || !confirm then
      some (ErrorResponse env w "Account deletion requires confirmation" 400
        (Json.obj [("hint", Json.str "Set 'confirm': true in request body")]))
    else
      some (SuccessResponse env w
        (Json.obj [("message", Json.str "Account deleted successfully")]) 200)

/-- The business handler of the route (`userHandler`). -/
def userHandler (env : Env) : HandlerFunc :=
  fun w r =>
    match GetUserFromContext r with
    | (_, false) => some (ErrorResponse env w "Unauthorized" 401 Json.null)
    | (user, true) =>
      if r.Method = "GET" then handleGetProfile env w user
      else if r.Method = "PUT" then handleUpdateProfile env w r user
      else if r.Method = "DELETE" then handleDeleteAccount env w r user
      else some (ErrorResponse env w "Method not allowed" 405 Json.null)

/-- The entry point of the route (`Handler`). -/
def Handler (env : Env) : HandlerFunc :=
  CreateHandler env (userHandler env) config

end users

/-! ## health.go -/

/-- What `health.go` reads from the Go runtime and from the clock: `dataNow` is the
time of the first call of `time.Now` in `Handler` (inside `Data`), `now` that of the
call that fills the top-level timestamp, of the success and of the error body. -/
structure HealthEnv where
  now : String
  dataNow : String
  goVersion : String
  GOOS : String
  Alloc : Nat
  TotalAlloc : Nat
  Sys : Nat
  NumGC : Nat

/-- The health check response (`HealthResponse`). -/
structure HealthResponse where
  Success : Bool
  Data : List (String × Json)
  Time : String

/-- JSON encoding of `HealthResponse`, by its field tags. -/
def HealthResponse.toJson (p : HealthResponse) : Json :=
  Json.obj [("success", Json.bool p.Success),
            ("data", Json.obj p.Data),
            ("timestamp", Json.str p.Time)]

namespace health

/-- The helper `errorResponse` of `health.go`. -/
def errorResponse (now : String) (w : ResponseWriter) (message : String) (status : Nat) :
    ResponseWriter :=
  let w1 := w.SetHeader "Content-Type" "application/json"
  let w2 := w1.WriteHeader status
  w2.Write (Json.obj [("error", Json.str message), ("timestamp", Json.str now)])

/-- The helper `getEnv` of `health.go`: it returns `runtime.GOOS` when that is
non-empty, and the fallback otherwise. -/
def getEnv (henv : HealthEnv) (_key fallback : String) : String :=
  if henv.GOOS ≠ "" then henv.GOOS else fallback

/-- Handles health check requests (`Handler` of `health.go`). -/
def Handler (henv : HealthEnv) : HandlerFunc :=
  fun w r =>
    let w1 := w.SetHeader "Access-Control-Allow-Origin" "*"
    let w2 := w1.SetHeader "Access-Control-Allow-Methods" "GET, OPTIONS"
    let w3 := w2.SetHeader "Access-Control-Allow-Headers" "Content-Type, Authorization"
    if r.Method = "OPTIONS" then
      some (w3.WriteHeader 200)
    else if r.Method ≠ "GET" then
      some (errorResponse henv.now w3 "Method not allowed" 405)
    else
      let response : HealthResponse :=
        { Success := true
          Data := [("environment", Json.str (getEnv henv "NODE_ENV" "production")),
                   ("go_version", Json.str henv.goVersion),
                   ("memory", Json.obj [("alloc", Json.num henv.Alloc),
                                        ("numGC", Json.num henv.NumGC),
                                        ("sys", Json.num henv.Sys),
                                        ("totalAlloc", Json.num henv.TotalAlloc)]),
                   ("runtime", Json.str "go"),
                   ("status", Json.str "healthy"),
                   ("timestamp", Json.str henv.dataNow),
                   ("version", Json.str "1.0.0")]
          Time := henv.now }
      let w4 := w3.SetHeader "Content-Type" "application/json"
      let w5 := w4.WriteHeader 200
      some (w5.Write response.toJson)

end health

/-! ## index.go -/

/-- The API index response (`IndexResponse`). -/
structure IndexResponse where
  Message : String
  Version : String
  Runtime : String
  Endpoints : List (String × Json)
  Timestamp : String

/-- JSON encoding of `IndexResponse`, by its field tags. -/
def IndexResponse.toJson (p : IndexResponse) : Json :=
  Json.obj [("message", Json.str p.Message),
            ("version", Json.str p.Version),
            ("runtime", Json.str p.Runtime),
            ("endpoints", Json.obj p.Endpoints),
            ("timestamp", Json.str p.Timestamp)]

namespace index

/-- The helper `errorResponse` of `index.go`. -/
def errorResponse (now : String) (w : ResponseWriter) (message : String) (status : Nat) :
    ResponseWriter :=
  let w1 := w.SetHeader "Content-Type" "application/json"
  let w2 := w1.WriteHeader status
  w2.Write (Json.obj [("error", Json.str message), ("timestamp", Json.str now)])

/-- Handles the API index endpoint (`Handler` of `index.go`); `now` is the clock. -/
def Handler (now : String) : HandlerFunc :=
  fun w r =>
    let w1 := w.SetHeader "Access-Control-Allow-Origin" "*"
    let w2 := w1.SetHeader "Access-Control-Allow-Methods" "GET, OPTIONS"
    let w3 := w2.SetHeader "Access-Control-Allow-Headers" "Content-Type, Authorization"
    if r.Method = "OPTIONS" then
      some (w3.WriteHeader 200)
    else if r.Method ≠ "GET" then
      some (errorResponse now w3 "Method not allowed" 405)
    else
      let response : IndexResponse :=
        { Message := "Budget Buddy Serverless API (Go)"
          Version := "1.0.0"
          Runtime := "Go"
          Endpoints := [("analytics", Json.str "/api/go/analytics"),
                        ("budgets", Json.str "/api/go/budgets"),
                        ("health", Json.str "/api/go/health"),
                        ("transactions", Json.str "/api/go/transactions"),
                        ("users", Json.str "/api/go/users")]
          Timestamp := now }
      let w4 := w3.SetHeader "Content-Type" "application/json"
      let w5 := w4.WriteHeader 200
      some (w5.Write response.toJson)

end index

/-! ## Specification-side notions -/

/-- The header form `Bearer <token>` in the words of the specification: the word
`Bearer`, a single space, and a second part that contains no space. -/
def IsBearerForm (h : String) : Prop :=
  ∃ token : String, ' ' ∉ token.data ∧ h = "Bearer " ++ token

/-- The `Authorization` header is absent, or its first value is empty. -/
def AuthorizationMissing (r : Request) : Prop :=
  r.Header "Authorization" = [] ∨ ∃ rest, r.Header "Authorization" = "" :: rest

/-- The error of a missing header. -/
def missingHeaderError : AuthError := { Message := "Missing authorization header" }

/-- The error of a malformed header. -/
def malformedHeaderError : AuthError := { Message := "Invalid authorization header format" }

/-- The identity every accepted token resolves to. -/
def mockUser : User := { ID := "user-id", Email := "user@example.com" }

/-- The four CORS headers of `ApplyCORS` are present in a header list, with the
values `ApplyCORS` gives them. -/
def HasCORS (h : List (String × String)) : Prop :=
  headerValue h "Access-Control-Allow-Origin" = some "*" ∧
  headerValue h "Access-Control-Allow-Methods" = some "GET, POST, PUT, DELETE, OPTIONS" ∧
  headerValue h "Access-Control-Allow-Headers"
    = some "Content-Type, Authorization, X-Requested-With" ∧
  headerValue h "Access-Control-Allow-Credentials" = some "true"

instance (h : List (String × String)) : Decidable (HasCORS h) := by
  unfold HasCORS; infer_instance

/-- The writer reached from `w` by a sequence of calls of `SuccessResponse` and
`ErrorResponse`: what a business handler does that answers through the envelope. -/
inductive WritesEnvelopes (w : ResponseWriter) : ResponseWriter → Prop where
  | nothing : WritesEnvelopes w w
  | success (env : Env) (w1 : ResponseWriter) (data : Json) (status : Nat) :
      WritesEnvelopes w w1 → WritesEnvelopes w (SuccessResponse env w1 data status)
  | error (env : Env) (w1 : ResponseWriter) (message : String) (status : Nat)
      (details : Json) :
      WritesEnvelopes w w1 → WritesEnvelopes w (ErrorResponse env w1 message status details)

/-- The details of the 405 answer of `ValidateMethod`. -/
def allowedDetails (allowed : List String) : Json :=
  Json.obj [("allowed", Json.arr (allowed.map Json.str))]

/-- The body document of an error answer. -/
def errorDoc (env : Env) (message : String) (details : Json) : Json :=
  Response.toJson
    { Success := false, Data := Json.null, Error := message, Details := details,
      Timestamp := env.now }

/-- The body document of a success answer. -/
def successDoc (env : Env) (data : Json) : Json :=
  Response.toJson
    { Success := true, Data := data, Error := "", Details := Json.null, Timestamp := env.now }

/-- The pipeline answers the request by itself: the answer is the same writer for
every business handler, so no handler was invoked. -/
def AnswersWithoutHandler (env : Env) (config : Config) (r : Request) : Prop :=
  ∃ w : ResponseWriter,
    ∀ handler : HandlerFunc, CreateHandler env handler config ResponseWriter.fresh r = some w

/-- The four authenticated routes. -/
inductive Route where
  | transactions
  | budgets
  | analytics
  | users
  deriving DecidableEq, Repr

/-- The configuration each route passes to `CreateHandler`. -/
def Route.config : Route → Config
  | .transactions => transactions.config
  | .budgets => budgets.config
  | .analytics => analytics.config
  | .users => users.config

/-- The business handler each route passes to `CreateHandler`. -/
def Route.handler : Route → Env → HandlerFunc
  | .transactions => transactions.transactionHandler
  | .budgets => budgets.budgetHandler
  | .analytics => analytics.analyticsHandler
  | .users => users.userHandler

/-- The business handler of a route without its `Unauthorized` branch and without
the `Method not allowed` default of its verb switch: the dispatch alone, on a user
pointer that is given. -/
def Route.business (route : Route) (env : Env) (w : ResponseWriter) (r : Request)
    (user : Option User) : Option ResponseWriter :=
  match route with
  | .transactions =>
    if r.Method = "GET" then transactions.handleGetTransactions env w r user
    else if r.Method = "POST" then transactions.handleCreateTransaction env w r user
    else if r.Method = "PUT" then transactions.handleUpdateTransaction env w r user
    else transactions.handleDeleteTransaction env w r user
  | .budgets =>
    if r.Method = "GET" then budgets.handleGetBudgets env w r user
    else if r.Method = "POST" then budgets.handleCreateBudget env w r user
    else if r.Method = "PUT" then budgets.handleUpdateBudget env w r user
    else budgets.handleDeleteBudget env w r user
  | .analytics =>
    if GetQueryParam r "type" (goString "summary") = goString "summary" then
      analytics.handleSummaryAnalytics env w user
    else if GetQueryParam r "type" (goString "summary") = goString "category" then
      analytics.handleCategoryAnalytics env w user
    else if GetQueryParam r "type" (goString "summary") = goString "trend" then
      analytics.handleTrendAnalytics env w user
    else
      some (ErrorResponse env w "Invalid analytics type" 400
        (Json.obj [("allowed",
          Json.arr [Json.str "summary", Json.str "category", Json.str "trend"])]))
  | .users =>
    if r.Method = "GET" then users.handleGetProfile env w user
    else if r.Method = "PUT" then users.handleUpdateProfile env w r user
    else users.handleDeleteAccount env w r user

/-- The CORS headers are in the header map, and were in the headers sent with the
status line when there is one. -/
def CorsInvariant (w : ResponseWriter) : Prop :=
  HasCORS w.header ∧ (w.status ≠ none → HasCORS w.sent)

/-- The rules of the specification for a transaction: amount > 0, category
non-empty, kind income or expense. -/
def ValidTransactionInput (input : CreateTransactionInput) : Prop :=
  0 < input.Amount ∧ input.Category ≠ "" ∧ (input.Type_ = "income" ∨ input.Type_ = "expense")

instance (input : CreateTransactionInput) : Decidable (ValidTransactionInput input) := by
  unfold ValidTransactionInput; infer_instance

/-- The rules of the specification for a budget: category non-empty, amount > 0,
period weekly, monthly or yearly. -/
def ValidBudgetInput (input : CreateBudgetInput) : Prop :=
  input.Category ≠ "" ∧ 0 < input.Amount ∧
    (input.Period = "weekly" ∨ input.Period = "monthly" ∨ input.Period = "yearly")

instance (input : CreateBudgetInput) : Decidable (ValidBudgetInput input) := by
  unfold ValidBudgetInput; infer_instance

/-- The messages of the rules a transaction input violates, in the order of the
rules in the specification. -/
def transactionViolations (input : CreateTransactionInput) : List String :=
  (if input.Amount ≤ 0 then ["Amount must be positive"] else [])
    ++ (if input.Category = "" then ["Category is required"] else [])
    ++ (if input.Type_ ≠ "income" ∧ input.Type_ ≠ "expense"
          then ["Type must be 'income' or 'expense'"] else [])

/-- The messages of the rules a budget input violates, in the order of the rules in
the specification. -/
def budgetViolations (input : CreateBudgetInput) : List String :=
  (if input.Category = "" then ["Category is required"] else [])
    ++ (if input.Amount ≤ 0 then ["Amount must be positive"] else [])
    ++ (if input.Period ≠ "weekly" ∧ input.Period ≠ "monthly" ∧ input.Period ≠ "yearly"
          then ["Period must be 'weekly', 'monthly', or 'yearly'"] else [])

/-- A body document reports a violation when the violation is its error message, or
when the document has details at all (the most generous reading). -/
def ReportsViolation (doc : Json) (message : String) : Prop :=
  doc.field "error" = some (Json.str message) ∨ (doc.field "details").isSome = true

/-- Every violation of the list is reported by some document of the body. -/
def ReportsAll (body : List Json) (violations : List String) : Prop :=
  ∀ message ∈ violations, ∃ doc ∈ body, ReportsViolation doc message

/-- The query parameter is absent, or its first value is empty. -/
def QueryParamMissing (r : Request) (key : String) : Prop :=
  r.Query key = [] ∨ ∃ rest, r.Query key = goString "" :: rest

/-- The three analytics types the handler knows. -/
def analyticsTypes : List String := ["summary", "category", "trend"]

/-- The details of the answer to an unknown analytics type. -/
def analyticsTypeDetails : Json :=
  Json.obj [("allowed", Json.arr [Json.str "summary", Json.str "category", Json.str "trend"])]

/-- A library environment whose decoders reject every body. -/
def sampleEnv : Env :=
  { now := "2024-01-15T10:00:00Z"
    Atoi := fun _ => 0
    decodeTransactionInput := fun _ => .error "unexpected end of JSON input"
    decodeBudgetInput := fun _ => .error "unexpected end of JSON input"
    decodeProfileInput := fun _ => .error "unexpected end of JSON input"
    decodeMap := fun _ => .error "unexpected end of JSON input" }

/-- The sample environment, decoding every body to the given transaction input. -/
def envDecodingTransaction (input : CreateTransactionInput) : Env :=
  { sampleEnv with decodeTransactionInput := fun _ => .ok input }

/-- The sample environment, decoding every body to the given budget input. -/
def envDecodingBudget (input : CreateBudgetInput) : Env :=
  { sampleEnv with decodeBudgetInput := fun _ => .ok input }

/-- The sample environment, decoding every body to the given map. -/
def envDecodingMap (m : List (String × Json)) : Env :=
  { sampleEnv with decodeMap := fun _ => .ok m }

/-- A valid transaction input: 42.50 of groceries, an expense. -/
def groceriesInput : CreateTransactionInput :=
  { Amount := 85 / 2, Category := "Groceries", Type_ := "expense", Description := "",
    Date := "2024-01-15", Merchant := "", PaymentMethod := "" }

/-- The budget input of the example of the specification: an empty category. -/
def emptyCategoryBudget : CreateBudgetInput :=
  { Category := "", Amount := 100, Period := "monthly", StartDate := "", EndDate := "",
    AlertThreshold := 0 }

/-- A transaction input that breaks two rules: amount 0 and an empty category. -/
def doublyInvalidInput : CreateTransactionInput :=
  { Amount := 0, Category := "", Type_ := "income", Description := "", Date := "",
    Merchant := "", PaymentMethod := "" }

/-- A request with the given verb and `Authorization` values, and nothing else. -/
def sampleRequest (method : String) (authorization : List String) : Request :=
  { Method := method
    Header := fun key => if key = "Authorization" then authorization else []
    Query := fun _ => []
    Body := ""
    ctxUser := none }

/-- A GET request on the analytics route, with a bearer token and the given values
of the `type` query parameter. -/
def analyticsRequest (types : List String) : Request :=
  { Method := "GET"
    Header := fun key => if key = "Authorization" then ["Bearer t"] else []
    Query := fun key => if key = "type" then types.map goString else []
    Body := ""
    ctxUser := none }

/-- A business handler that answers 200 with an empty object. -/
def sampleHandler : HandlerFunc :=
  fun w _ => some (SuccessResponse sampleEnv w (Json.obj []) 200)

/-! ## Splitting -/

theorem splitChars_ne_nil (sep : Char) (cs : List Char) : splitChars sep cs ≠ [] := by
  induction cs with
  | nil => simp [splitChars]
  | cons c cs ih =>
    unfold splitChars
    split
    · simp
    · split <;> simp

theorem splitChars_eq_single (sep : Char) (cs a : List Char) :
    splitChars sep cs = [a] ↔ sep ∉ a ∧ cs = a := by
  induction cs generalizing a with
  | nil =>
    simp only [splitChars, List.cons.injEq, and_true]
    constructor
    · intro h; subst h; simp
    · intro h; exact h.2
  | cons c cs ih =>
    unfold splitChars
    by_cases hc : c = sep
    · simp only [hc, if_true, List.cons.injEq]
      constructor
      · intro h; exact absurd h.2 (splitChars_ne_nil sep cs)
      · intro h
        have h2 := h.2
        rw [← h2] at h
        simp at h
    · simp only [hc, if_false]
      cases hs : splitChars sep cs with
      | nil => exact absurd hs (splitChars_ne_nil sep cs)
      | cons p ps =>
        simp only [List.cons.injEq]
        constructor
        · rintro ⟨rfl, rfl⟩
          have := (ih p).1 hs
          refine ⟨?_, ?_⟩
          · simp only [List.mem_cons, not_or]
            exact ⟨fun h => hc h.symm, this.1⟩
          · rw [this.2]
        · rintro ⟨hn, rfl⟩
          simp only [List.mem_cons, not_or] at hn
          have := (ih cs).2 ⟨hn.2, rfl⟩
          rw [this] at hs
          simp only [List.cons.injEq] at hs
          exact ⟨by rw [hs.1], hs.2.symm⟩

theorem splitChars_eq_pair (sep : Char) (cs a b : List Char) :
    splitChars sep cs = [a, b] ↔ sep ∉ a ∧ sep ∉ b ∧ cs = a ++ sep :: b := by
  induction cs generalizing a with
  | nil => simp [splitChars]
  | cons c cs ih =>
    unfold splitChars
    by_cases hc : c = sep
    · simp only [hc, if_true, List.cons.injEq]
      rw [splitChars_eq_single]
      constructor
      · rintro ⟨rfl, hb, rfl⟩
        simp [hb]
      · rintro ⟨ha, hb, h⟩
        cases a with
        | nil =>
          simp only [List.nil_append, List.cons.injEq, true_and] at h
          exact ⟨rfl, hb, h⟩
        | cons x a =>
          simp only [List.cons_append, List.cons.injEq] at h
          simp only [List.mem_cons, not_or] at ha
          exact absurd h.1 ha.1
    · simp only [hc, if_false]
      cases hs : splitChars sep cs with
      | nil => exact absurd hs (splitChars_ne_nil sep cs)
      | cons p ps =>
        simp only [List.cons.injEq]
        constructor
        · rintro ⟨rfl, rfl⟩
          have := (ih p).1 hs
          refine ⟨?_, this.2.1, ?_⟩
          · simp only [List.mem_cons, not_or]
            exact ⟨fun h => hc h.symm, this.1⟩
          · rw [this.2.2]; rfl
        · rintro ⟨ha, hb, h⟩
          cases a with
          | nil =>
            simp only [List.nil_append, List.cons.injEq] at h
            exact absurd h.1 hc
          | cons x a =>
            simp only [List.cons_append, List.cons.injEq] at h
            simp only [List.mem_cons, not_or] at ha
            have := (ih a).2 ⟨ha.2, hb, h.2⟩
            rw [this] at hs
            simp only [List.cons.injEq] at hs
            exact ⟨by rw [h.1, hs.1], hs.2.symm⟩

/-! ## Authentication -/

theorem valuesGet_eq_empty_iff (r : Request) :
    valuesGet r.Header "Authorization" = "" ↔ AuthorizationMissing r := by
  unfold valuesGet AuthorizationMissing
  cases h : r.Header "Authorization" with
  | nil => simp
  | cons v vs => simp

theorem bearer_parts_iff (h : String) :
    ((stringsSplit h ' ').length = 2 ∧ (stringsSplit h ' ').head? = some "Bearer")
      ↔ IsBearerForm h := by
  unfold stringsSplit IsBearerForm
  constructor
  · rintro ⟨hlen, hhead⟩
    cases hs : splitChars ' ' h.data with
    | nil => exact absurd hs (splitChars_ne_nil _ _)
    | cons a rest =>
      cases rest with
      | nil => rw [hs] at hlen; simp at hlen
      | cons b rest2 =>
        cases rest2 with
        | cons c rest3 => rw [hs] at hlen; simp at hlen
        | nil =>
          rw [hs] at hhead
          simp only [List.map_cons, List.head?_cons, Option.some.injEq] at hhead
          have ha : a = "Bearer".data := by rw [← hhead]
          subst ha
          have hp := (splitChars_eq_pair ' ' h.data _ b).1 hs
          refine ⟨String.mk b, hp.2.1, ?_⟩
          apply String.ext
          rw [hp.2.2, String.data_append]
          rfl
  · rintro ⟨token, htok, rfl⟩
    have hp : splitChars ' ' ("Bearer " ++ token).data = ["Bearer".data, token.data] := by
      rw [splitChars_eq_pair]
      refine ⟨by decide, htok, ?_⟩
      rw [String.data_append]
      rfl
    rw [hp]
    simp

theorem AuthenticateRequest_missing (r : Request)
    (h : valuesGet r.Header "Authorization" = "") :
    AuthenticateRequest r = (none, some missingHeaderError) := by
  simp [AuthenticateRequest, h, missingHeaderError]

theorem AuthenticateRequest_malformed (r : Request)
    (h : valuesGet r.Header "Authorization" ≠ "")
    (hf : ¬ IsBearerForm (valuesGet r.Header "Authorization")) :
    AuthenticateRequest r = (none, some malformedHeaderError) := by
  rw [← bearer_parts_iff] at hf
  unfold AuthenticateRequest
  simp only [h, if_false]
  rw [if_pos]
  · rfl
  · by_contra hc
    apply hf
    simp only [not_or, not_not] at hc
    exact hc

theorem AuthenticateRequest_bearer (r : Request)
    (hf : IsBearerForm (valuesGet r.Header "Authorization")) :
    AuthenticateRequest r = (some mockUser, none) := by
  have h : valuesGet r.Header "Authorization" ≠ "" := by
    obtain ⟨token, _, ht⟩ := hf
    rw [ht]
    intro hc
    have := congrArg String.length hc
    simp only [String.length_append, String.length_empty, Nat.add_eq_zero] at this
    exact absurd this.1 (by decide)
  rw [← bearer_parts_iff] at hf
  unfold AuthenticateRequest
  simp only [h, if_false]
  rw [if_neg]
  · rfl
  · simp only [not_or, not_not]
    exact hf

/-- C3: `AuthenticateRequest` returns the missing-header error exactly when the
`Authorization` header is absent or empty, the malformed-header error exactly when
the header is non-empty and not of the form `Bearer <token>`, and the fixed identity
`user-id` / `user@example.com` exactly in the remaining case, whatever the token is;
these three results are the only ones. -/
theorem AuthenticateRequest_contract (r : Request) :
    (AuthenticateRequest r = (none, some missingHeaderError) ↔ AuthorizationMissing r) ∧
    (AuthenticateRequest r = (none, some malformedHeaderError) ↔
      (¬ AuthorizationMissing r ∧ ¬ IsBearerForm (valuesGet r.Header "Authorization"))) ∧
    (AuthenticateRequest r = (some { ID := "user-id", Email := "user@example.com" }, none) ↔
      (¬ AuthorizationMissing r ∧ IsBearerForm (valuesGet r.Header "Authorization"))) ∧
    (AuthenticateRequest r = (none, some missingHeaderError) ∨
      AuthenticateRequest r = (none, some malformedHeaderError) ∨
      AuthenticateRequest r = (some { ID := "user-id", Email := "user@example.com" }, none)) := by
  rw [← valuesGet_eq_empty_iff]
  by_cases h : valuesGet r.Header "Authorization" = ""
  · have e := AuthenticateRequest_missing r h
    rw [e]
    simp [h, missingHeaderError, malformedHeaderError]
  · by_cases hf : IsBearerForm (valuesGet r.Header "Authorization")
    · have e := AuthenticateRequest_bearer r hf
      rw [e]
      simp [h, hf, mockUser]
    · have e := AuthenticateRequest_malformed r h hf
      rw [e]
      simp [h, hf, missingHeaderError, malformedHeaderError]

/-! ## The response writer -/

theorem find_filter_ne (h : List (String × String)) (k key : String) (hne : k ≠ key) :
    (h.filter (fun kv => kv.1 != k)).find? (fun kv => kv.1 == key)
      = h.find? (fun kv => kv.1 == key) := by
  induction h with
  | nil => rfl
  | cons x xs ih =>
    by_cases hx : x.1 = k
    · have hk : ¬ x.1 = key := fun e => hne (hx.symm.trans e)
      simp [List.filter_cons, List.find?_cons, hx, hne, ih]
    · by_cases hy : x.1 = key
      · have hk : ¬ key = k := fun e => hne e.symm
        simp [List.filter_cons, List.find?_cons, hy, hk]
      · simp [List.filter_cons, List.find?_cons, hx, hy, ih]

theorem headerValue_SetHeader_same (w : ResponseWriter) (k v : String) :
    headerValue (w.SetHeader k v).header k = some v := by
  simp [headerValue, ResponseWriter.SetHeader, List.find?_cons]

theorem headerValue_SetHeader_other (w : ResponseWriter) (k v key : String) (hne : k ≠ key) :
    headerValue (w.SetHeader k v).header key = headerValue w.header key := by
  unfold headerValue ResponseWriter.SetHeader
  have hk : ((k, v).1 == key) = false := by simpa using hne
  simp only [List.find?_cons, hk]
  rw [find_filter_ne _ _ _ hne]

theorem HasCORS_ApplyCORS (w : ResponseWriter) : HasCORS (ApplyCORS w).header := by
  unfold HasCORS ApplyCORS
  refine ⟨?_, ?_, ?_, ?_⟩
  · rw [headerValue_SetHeader_other _ _ _ _ (by decide),
      headerValue_SetHeader_other _ _ _ _ (by decide),
      headerValue_SetHeader_other _ _ _ _ (by decide), headerValue_SetHeader_same]
  · rw [headerValue_SetHeader_other _ _ _ _ (by decide),
      headerValue_SetHeader_other _ _ _ _ (by decide), headerValue_SetHeader_same]
  · rw [headerValue_SetHeader_other _ _ _ _ (by decide), headerValue_SetHeader_same]
  · rw [headerValue_SetHeader_same]

theorem HasCORS_SetHeader_contentType (w : ResponseWriter) (v : String)
    (h : HasCORS w.header) : HasCORS (w.SetHeader "Content-Type" v).header := by
  unfold HasCORS at *
  rw [headerValue_SetHeader_other _ _ _ _ (by decide),
    headerValue_SetHeader_other _ _ _ _ (by decide),
    headerValue_SetHeader_other _ _ _ _ (by decide),
    headerValue_SetHeader_other _ _ _ _ (by decide)]
  exact h

theorem ApplyCORS_status (w : ResponseWriter) : (ApplyCORS w).status = w.status := rfl

theorem ApplyCORS_body (w : ResponseWriter) : (ApplyCORS w).body = w.body := rfl

theorem ErrorResponse_unwritten (env : Env) (w : ResponseWriter) (message : String)
    (status : Nat) (details : Json) (h : w.status = none) :
    ErrorResponse env w message status details =
      { header := (w.SetHeader "Content-Type" "application/json").header
        status := some status
        sent := (w.SetHeader "Content-Type" "application/json").header
        body := w.body ++ [errorDoc env message details] } := by
  simp [ErrorResponse, ResponseWriter.Write, ResponseWriter.WriteHeader,
    ResponseWriter.SetHeader, h, errorDoc]

theorem SuccessResponse_unwritten (env : Env) (w : ResponseWriter) (data : Json)
    (status : Nat) (h : w.status = none) :
    SuccessResponse env w data status =
      { header := (w.SetHeader "Content-Type" "application/json").header
        status := some status
        sent := (w.SetHeader "Content-Type" "application/json").header
        body := w.body ++ [successDoc env data] } := by
  simp [SuccessResponse, ResponseWriter.Write, ResponseWriter.WriteHeader,
    ResponseWriter.SetHeader, h, successDoc]

/-! ## The pipeline in normal form -/

theorem CreateHandler_eq (env : Env) (handler : HandlerFunc) (config : Config)
    (w : ResponseWriter) (r : Request) :
    CreateHandler env handler config w r =
      if config.EnableCORS = true ∧ r.Method = "OPTIONS" then
        some ((ApplyCORS (ApplyCORS w)).WriteHeader 200)
      else if config.AllowedMethods ≠ [] ∧ r.Method ∉ config.AllowedMethods then
        some (ErrorResponse env (if config.EnableCORS then ApplyCORS w else w)
          "Method not allowed" 405 (allowedDetails config.AllowedMethods))
      else if config.RequireAuth = true then
        match AuthenticateRequest r with
        | (_, some _) =>
          some (ErrorResponse env (if config.EnableCORS then ApplyCORS w else w)
            "Unauthorized" 401 Json.null)
        | (user, none) =>
          handler (if config.EnableCORS then ApplyCORS w else w) (SetUserContext r user)
      else
        handler (if config.EnableCORS then ApplyCORS w else w) r := by
  unfold CreateHandler HandleCORSPreflight ValidateMethod allowedDetails
  by_cases hc : config.EnableCORS = true <;> by_cases ho : r.Method = "OPTIONS" <;>
    by_cases hl : config.AllowedMethods = [] <;>
    by_cases hm : r.Method ∈ config.AllowedMethods <;>
    by_cases ha : config.RequireAuth = true
  all_goals (try simp only [ho] at hm)
  all_goals simp [hc, ho, hl, hm, ha, List.length_pos]

theorem corsStage_status (config : Config) (w : ResponseWriter) :
    (if config.EnableCORS then ApplyCORS w else w).status = w.status := by
  split <;> rfl

theorem corsStage_body (config : Config) (w : ResponseWriter) :
    (if config.EnableCORS then ApplyCORS w else w).body = w.body := by
  split <;> rfl

theorem finish_ErrorResponse (env : Env) (w : ResponseWriter) (message : String)
    (status : Nat) (details : Json) (h : w.status = none) :
    (ErrorResponse env w message status details).finish =
      { status := status
        header := (w.SetHeader "Content-Type" "application/json").header
        body := w.body ++ [errorDoc env message details] } := by
  rw [ErrorResponse_unwritten env w message status details h]
  rfl

theorem finish_SuccessResponse (env : Env) (w : ResponseWriter) (data : Json)
    (status : Nat) (h : w.status = none) :
    (SuccessResponse env w data status).finish =
      { status := status
        header := (w.SetHeader "Content-Type" "application/json").header
        body := w.body ++ [successDoc env data] } := by
  rw [SuccessResponse_unwritten env w data status h]
  rfl

/-! ## C1: requests without a usable credential -/

/-- C1, as stated, fails: on the analytics configuration (authentication required)
a request without an `Authorization` header is answered 200 when it is a preflight
and 405 when its verb is not allowed, not 401. -/
theorem unauthenticated_answer_not_always_401 :
    analytics.config.RequireAuth = true ∧
    AuthorizationMissing (sampleRequest "OPTIONS" []) ∧
    AuthorizationMissing (sampleRequest "POST" []) ∧
    (CreateHandler sampleEnv sampleHandler analytics.config ResponseWriter.fresh
      (sampleRequest "OPTIONS" [])).map (fun w => w.finish.status) = some 200 ∧
    (CreateHandler sampleEnv sampleHandler analytics.config ResponseWriter.fresh
      (sampleRequest "POST" [])).map (fun w => w.finish.status) = some 405 := by
  refine ⟨rfl, Or.inl rfl, Or.inl rfl, ?_, ?_⟩
  · decide
  · decide

/-- C1, amended: when authentication is required and the `Authorization` header is
missing or malformed, the pipeline answers without the business handler (the same
answer for every handler), and the status is 401 once the request is past the two
earlier stages: 200 for a preflight under CORS, 405 for a verb outside a non-empty
allow-list, and 401 otherwise. -/
theorem unauthenticated_never_reaches_handler (env : Env) (config : Config) (r : Request)
    (hreq : config.RequireAuth = true)
    (hbad : AuthorizationMissing r ∨ ¬ IsBearerForm (valuesGet r.Header "Authorization")) :
    ∃ w : ResponseWriter,
      (∀ handler : HandlerFunc,
        CreateHandler env handler config ResponseWriter.fresh r = some w) ∧
      w.finish.status =
        (if config.EnableCORS = true ∧ r.Method = "OPTIONS" then 200
         else if config.AllowedMethods ≠ [] ∧ r.Method ∉ config.AllowedMethods then 405
         else 401) := by
  have hauth : ∃ e, AuthenticateRequest r = (none, some e) := by
    by_cases hm : valuesGet r.Header "Authorization" = ""
    · exact ⟨_, AuthenticateRequest_missing r hm⟩
    · rcases hbad with hb | hb
      · exact absurd ((valuesGet_eq_empty_iff r).2 hb) hm
      · exact ⟨_, AuthenticateRequest_malformed r hm hb⟩
  obtain ⟨e, he⟩ := hauth
  by_cases h1 : config.EnableCORS = true ∧ r.Method = "OPTIONS"
  · refine ⟨(ApplyCORS (ApplyCORS ResponseWriter.fresh)).WriteHeader 200, ?_, ?_⟩
    · intro handler
      rw [CreateHandler_eq, if_pos h1]
    · rw [if_pos h1]; rfl
  · by_cases h2 : config.AllowedMethods ≠ [] ∧ r.Method ∉ config.AllowedMethods
    · refine ⟨ErrorResponse env
        (if config.EnableCORS then ApplyCORS ResponseWriter.fresh else ResponseWriter.fresh)
        "Method not allowed" 405 (allowedDetails config.AllowedMethods),
        fun handler => ?_, ?_⟩
      · rw [CreateHandler_eq, if_neg h1, if_pos h2]
      · rw [if_neg h1, if_pos h2, finish_ErrorResponse _ _ _ _ _ (corsStage_status _ _)]
    · refine ⟨ErrorResponse env
        (if config.EnableCORS then ApplyCORS ResponseWriter.fresh else ResponseWriter.fresh)
        "Unauthorized" 401 Json.null, fun handler => ?_, ?_⟩
      · rw [CreateHandler_eq, if_neg h1, if_neg h2, if_pos hreq, he]
      · rw [if_neg h1, if_neg h2, finish_ErrorResponse _ _ _ _ _ (corsStage_status _ _)]

/-- Witness of `unauthenticated_never_reaches_handler`: the transactions configuration
and a GET request without a header. -/
theorem unauthenticated_never_reaches_handler_witness :
    ∃ w : ResponseWriter,
      (∀ handler : HandlerFunc,
        CreateHandler sampleEnv handler transactions.config ResponseWriter.fresh
          (sampleRequest "GET" []) = some w) ∧
      w.finish.status =
        (if transactions.config.EnableCORS = true ∧ (sampleRequest "GET" []).Method = "OPTIONS"
          then 200
         else if transactions.config.AllowedMethods ≠ [] ∧
            (sampleRequest "GET" []).Method ∉ transactions.config.AllowedMethods then 405
         else 401) :=
  unauthenticated_never_reaches_handler sampleEnv transactions.config (sampleRequest "GET" [])
    rfl (Or.inl (Or.inl rfl))

/-! ## C2: verbs outside the allow-list -/

/-- C2, as stated, fails: the analytics configuration allows only GET, and an
OPTIONS request, whose verb is not in that list, is answered 200 with no body. -/
theorem disallowed_options_answered_200 :
    analytics.config.AllowedMethods ≠ [] ∧
    (sampleRequest "OPTIONS" []).Method ∉ analytics.config.AllowedMethods ∧
    (CreateHandler sampleEnv sampleHandler analytics.config ResponseWriter.fresh
      (sampleRequest "OPTIONS" [])).map (fun w => w.finish.status) = some 200 ∧
    (CreateHandler sampleEnv sampleHandler analytics.config ResponseWriter.fresh
      (sampleRequest "OPTIONS" [])).map (fun w => w.finish.body.length) = some 0 := by
  refine ⟨by decide, by decide, by decide, by decide⟩

/-- C2, amended: with a non-empty allow-list, a request whose verb is not in the
list, and which is not a preflight (OPTIONS with CORS enabled), is answered 405 by
the pipeline, whatever the handler; the body is one error envelope with the message
`Method not allowed` whose details are the object with the single key `allowed`
holding exactly the configured list. -/
theorem disallowed_method_answered_405 (env : Env) (handler : HandlerFunc) (config : Config)
    (r : Request) (hl : config.AllowedMethods ≠ [])
    (hm : r.Method ∉ config.AllowedMethods)
    (hp : ¬ (config.EnableCORS = true ∧ r.Method = "OPTIONS")) :
    ∃ w : ResponseWriter,
      CreateHandler env handler config ResponseWriter.fresh r = some w ∧
      w.finish.status = 405 ∧
      w.finish.body =
        [errorDoc env "Method not allowed" (allowedDetails config.AllowedMethods)] ∧
      (errorDoc env "Method not allowed" (allowedDetails config.AllowedMethods)).field "details"
        = some (Json.obj [("allowed", Json.arr (config.AllowedMethods.map Json.str))]) := by
  refine ⟨ErrorResponse env
    (if config.EnableCORS then ApplyCORS ResponseWriter.fresh else ResponseWriter.fresh)
    "Method not allowed" 405 (allowedDetails config.AllowedMethods), ?_, ?_, ?_, ?_⟩
  · rw [CreateHandler_eq, if_neg hp, if_pos ⟨hl, hm⟩]
  · rw [finish_ErrorResponse _ _ _ _ _ (corsStage_status _ _)]
  · rw [finish_ErrorResponse _ _ _ _ _ (corsStage_status _ _)]
    simp only [corsStage_body]
    rfl
  · simp [errorDoc, Response.toJson, Json.field, allowedDetails, Json.isNull]

/-- Witness of `disallowed_method_answered_405`: a DELETE request on the analytics
configuration. -/
theorem disallowed_method_answered_405_witness :
    ∃ w : ResponseWriter,
      CreateHandler sampleEnv sampleHandler analytics.config ResponseWriter.fresh
        (sampleRequest "DELETE" ["Bearer t"]) = some w ∧
      w.finish.status = 405 ∧
      w.finish.body =
        [errorDoc sampleEnv "Method not allowed" (allowedDetails analytics.config.AllowedMethods)] ∧
      (errorDoc sampleEnv "Method not allowed"
          (allowedDetails analytics.config.AllowedMethods)).field "details"
        = some (Json.obj [("allowed", Json.arr (analytics.config.AllowedMethods.map Json.str))]) :=
  disallowed_method_answered_405 sampleEnv sampleHandler analytics.config
    (sampleRequest "DELETE" ["Bearer t"]) (by decide) (by decide) (by decide)

/-! ## C5: preflight -/

/-- C5: with CORS enabled, an OPTIONS request is answered at once with status 200,
the CORS headers and an empty body; the answer is one fixed response, the same for
every handler, allow-list, authentication setting and `Authorization` header, so
neither the allow-list check, nor authentication, nor the business handler ran. -/
theorem preflight_answered_200 (env : Env) (handler : HandlerFunc) (config : Config)
    (r : Request) (hc : config.EnableCORS = true) (ho : r.Method = "OPTIONS") :
    CreateHandler env handler config ResponseWriter.fresh r =
      some { header := [("Access-Control-Allow-Credentials", "true"),
                        ("Access-Control-Allow-Headers",
                          "Content-Type, Authorization, X-Requested-With"),
                        ("Access-Control-Allow-Methods", "GET, POST, PUT, DELETE, OPTIONS"),
                        ("Access-Control-Allow-Origin", "*")]
             status := some 200
             sent := [("Access-Control-Allow-Credentials", "true"),
                      ("Access-Control-Allow-Headers",
                        "Content-Type, Authorization, X-Requested-With"),
                      ("Access-Control-Allow-Methods", "GET, POST, PUT, DELETE, OPTIONS"),
                      ("Access-Control-Allow-Origin", "*")]
             body := [] } ∧
    ((CreateHandler env handler config ResponseWriter.fresh r).map
      (fun w => (w.finish.status, w.finish.body.length))) = some (200, 0) := by
  have e : (ApplyCORS (ApplyCORS ResponseWriter.fresh)).WriteHeader 200 =
      { header := [("Access-Control-Allow-Credentials", "true"),
                   ("Access-Control-Allow-Headers",
                     "Content-Type, Authorization, X-Requested-With"),
                   ("Access-Control-Allow-Methods", "GET, POST, PUT, DELETE, OPTIONS"),
                   ("Access-Control-Allow-Origin", "*")]
        status := some 200
        sent := [("Access-Control-Allow-Credentials", "true"),
                 ("Access-Control-Allow-Headers",
                   "Content-Type, Authorization, X-Requested-With"),
                 ("Access-Control-Allow-Methods", "GET, POST, PUT, DELETE, OPTIONS"),
                 ("Access-Control-Allow-Origin", "*")]
        body := [] } := by
    rfl
  rw [CreateHandler_eq, if_pos ⟨hc, ho⟩, e]
  exact ⟨rfl, rfl⟩

/-- Witness of `preflight_answered_200`: an OPTIONS request on the users
configuration, carrying a malformed header. -/
theorem preflight_answered_200_witness :
    CreateHandler sampleEnv sampleHandler users.config ResponseWriter.fresh
        (sampleRequest "OPTIONS" ["Basic abc"]) =
      some { header := [("Access-Control-Allow-Credentials", "true"),
                        ("Access-Control-Allow-Headers",
                          "Content-Type, Authorization, X-Requested-With"),
                        ("Access-Control-Allow-Methods", "GET, POST, PUT, DELETE, OPTIONS"),
                        ("Access-Control-Allow-Origin", "*")]
             status := some 200
             sent := [("Access-Control-Allow-Credentials", "true"),
                      ("Access-Control-Allow-Headers",
                        "Content-Type, Authorization, X-Requested-With"),
                      ("Access-Control-Allow-Methods", "GET, POST, PUT, DELETE, OPTIONS"),
                      ("Access-Control-Allow-Origin", "*")]
             body := [] } ∧
    ((CreateHandler sampleEnv sampleHandler users.config ResponseWriter.fresh
        (sampleRequest "OPTIONS" ["Basic abc"])).map
      (fun w => (w.finish.status, w.finish.body.length))) = some (200, 0) :=
  preflight_answered_200 sampleEnv sampleHandler users.config
    (sampleRequest "OPTIONS" ["Basic abc"]) rfl rfl

/-! ## C4: the identity seen by the business handlers -/

theorem answers_preflight (env : Env) (config : Config) (r : Request)
    (h1 : config.EnableCORS = true ∧ r.Method = "OPTIONS") :
    AnswersWithoutHandler env config r :=
  ⟨(ApplyCORS (ApplyCORS ResponseWriter.fresh)).WriteHeader 200,
    fun handler => by rw [CreateHandler_eq, if_pos h1]⟩

theorem answers_disallowed (env : Env) (config : Config) (r : Request)
    (h1 : ¬ (config.EnableCORS = true ∧ r.Method = "OPTIONS"))
    (h2 : config.AllowedMethods ≠ [] ∧ r.Method ∉ config.AllowedMethods) :
    AnswersWithoutHandler env config r :=
  ⟨ErrorResponse env
      (if config.EnableCORS then ApplyCORS ResponseWriter.fresh else ResponseWriter.fresh)
      "Method not allowed" 405 (allowedDetails config.AllowedMethods),
    fun handler => by rw [CreateHandler_eq, if_neg h1, if_pos h2]⟩

theorem answers_unauthorized (env : Env) (config : Config) (r : Request)
    (h1 : ¬ (config.EnableCORS = true ∧ r.Method = "OPTIONS"))
    (h2 : ¬ (config.AllowedMethods ≠ [] ∧ r.Method ∉ config.AllowedMethods))
    (h3 : config.RequireAuth = true) (user : Option User) (e : AuthError)
    (ha : AuthenticateRequest r = (user, some e)) :
    AnswersWithoutHandler env config r :=
  ⟨ErrorResponse env
      (if config.EnableCORS then ApplyCORS ResponseWriter.fresh else ResponseWriter.fresh)
      "Unauthorized" 401 Json.null,
    fun handler => by rw [CreateHandler_eq, if_neg h1, if_neg h2, if_pos h3, ha]⟩

theorem not_answersWithoutHandler (env : Env) (config : Config) (r : Request)
    (hinv : ¬ AnswersWithoutHandler env config r) :
    ¬ (config.EnableCORS = true ∧ r.Method = "OPTIONS") ∧
    ¬ (config.AllowedMethods ≠ [] ∧ r.Method ∉ config.AllowedMethods) ∧
    (config.RequireAuth = true → ∃ user, AuthenticateRequest r = (user, none)) := by
  have h1 : ¬ (config.EnableCORS = true ∧ r.Method = "OPTIONS") :=
    fun h => hinv (answers_preflight env config r h)
  have h2 : ¬ (config.AllowedMethods ≠ [] ∧ r.Method ∉ config.AllowedMethods) :=
    fun h => hinv (answers_disallowed env config r h1 h)
  refine ⟨h1, h2, fun h3 => ?_⟩
  rcases ha : AuthenticateRequest r with ⟨user, _ | e⟩
  · exact ⟨user, rfl⟩
  · exact absurd (answers_unauthorized env config r h1 h2 h3 user e ha) hinv

theorem AuthenticateRequest_success_user (r : Request) (user : Option User)
    (h : AuthenticateRequest r = (user, none)) : user = some mockUser := by
  by_cases hm : valuesGet r.Header "Authorization" = ""
  · rw [AuthenticateRequest_missing r hm] at h
    simp at h
  · by_cases hf : IsBearerForm (valuesGet r.Header "Authorization")
    · rw [AuthenticateRequest_bearer r hf] at h
      simp only [Prod.mk.injEq, and_true] at h
      exact h.symm
    · rw [AuthenticateRequest_malformed r hm hf] at h
      simp at h

/-- C4: on each of the four authenticated routes, whenever the pipeline invokes the
business handler (its answer is not the same for every handler), the handler is called
on a request whose context holds a non-nil user, so `GetUserFromContext` returns that
user with `ok = true`; the verb is one of the route's allowed verbs, and the business
handler does exactly what its dispatch does: neither its `Unauthorized` branch nor the
`Method not allowed` default of its switch is taken. -/
theorem business_handler_sees_identity (route : Route) (env : Env) (r : Request)
    (hinv : ¬ AnswersWithoutHandler env route.config r) :
    ∃ u : User,
      (∀ handler : HandlerFunc,
        CreateHandler env handler route.config ResponseWriter.fresh r =
          handler (ApplyCORS ResponseWriter.fresh) (SetUserContext r (some u))) ∧
      (SetUserContext r (some u)).ctxUser = some (some u) ∧
      GetUserFromContext (SetUserContext r (some u)) = (some u, true) ∧
      (SetUserContext r (some u)).Method ∈ route.config.AllowedMethods ∧
      route.handler env (ApplyCORS ResponseWriter.fresh) (SetUserContext r (some u)) =
        route.business env (ApplyCORS ResponseWriter.fresh) (SetUserContext r (some u))
          (some u) := by
  obtain ⟨h1, h2, h3⟩ := not_answersWithoutHandler env route.config r hinv
  have hreq : route.config.RequireAuth = true := by cases route <;> rfl
  have hcors : route.config.EnableCORS = true := by cases route <;> rfl
  have hne : route.config.AllowedMethods ≠ [] := by cases route <;> decide
  obtain ⟨user, hu⟩ := h3 hreq
  have huser := AuthenticateRequest_success_user r user hu
  subst huser
  have hmem : r.Method ∈ route.config.AllowedMethods := by
    by_contra hc
    exact h2 ⟨hne, hc⟩
  refine ⟨mockUser, fun handler => ?_, rfl, rfl, hmem, ?_⟩
  · rw [CreateHandler_eq, if_neg h1, if_neg h2, if_pos hreq, hu]
    simp only [hcors, if_true]
  · cases route
    · have hm : r.Method = "GET" ∨ r.Method = "POST" ∨ r.Method = "PUT" ∨ r.Method = "DELETE" := by
        simpa [Route.config, transactions.config] using hmem
      simp only [Route.handler, Route.business, transactions.transactionHandler,
        GetUserFromContext, SetUserContext]
      rcases hm with h | h | h | h <;> simp [h]
    · have hm : r.Method = "GET" ∨ r.Method = "POST" ∨ r.Method = "PUT" ∨ r.Method = "DELETE" := by
        simpa [Route.config, budgets.config] using hmem
      simp only [Route.handler, Route.business, budgets.budgetHandler,
        GetUserFromContext, SetUserContext]
      rcases hm with h | h | h | h <;> simp [h]
    · simp only [Route.handler, Route.business, analytics.analyticsHandler,
        GetUserFromContext, SetUserContext]
    · have hm : r.Method = "GET" ∨ r.Method = "PUT" ∨ r.Method = "DELETE" := by
        simpa [Route.config, users.config] using hmem
      simp only [Route.handler, Route.business, users.userHandler,
        GetUserFromContext, SetUserContext]
      rcases hm with h | h | h <;> simp [h]

theorem sample_get_invokes_handler (route : Route) :
    ¬ AnswersWithoutHandler sampleEnv route.config (sampleRequest "GET" ["Bearer t"]) := by
  rintro ⟨w, hw⟩
  have h := hw (fun _ _ => none)
  have e : CreateHandler sampleEnv (fun _ _ => none) route.config ResponseWriter.fresh
      (sampleRequest "GET" ["Bearer t"]) = none := by
    cases route <;> rfl
  rw [e] at h
  cases h

/-- Witness of `business_handler_sees_identity`: a GET request with a bearer token on
the transactions route. -/
theorem business_handler_sees_identity_witness :
    ∃ u : User,
      (∀ handler : HandlerFunc,
        CreateHandler sampleEnv handler Route.transactions.config ResponseWriter.fresh
            (sampleRequest "GET" ["Bearer t"]) =
          handler (ApplyCORS ResponseWriter.fresh)
            (SetUserContext (sampleRequest "GET" ["Bearer t"]) (some u))) ∧
      (SetUserContext (sampleRequest "GET" ["Bearer t"]) (some u)).ctxUser = some (some u) ∧
      GetUserFromContext (SetUserContext (sampleRequest "GET" ["Bearer t"]) (some u))
        = (some u, true) ∧
      (SetUserContext (sampleRequest "GET" ["Bearer t"]) (some u)).Method
        ∈ Route.transactions.config.AllowedMethods ∧
      Route.transactions.handler sampleEnv (ApplyCORS ResponseWriter.fresh)
          (SetUserContext (sampleRequest "GET" ["Bearer t"]) (some u)) =
        Route.transactions.business sampleEnv (ApplyCORS ResponseWriter.fresh)
          (SetUserContext (sampleRequest "GET" ["Bearer t"]) (some u)) (some u) :=
  business_handler_sees_identity Route.transactions sampleEnv (sampleRequest "GET" ["Bearer t"])
    (sample_get_invokes_handler Route.transactions)

/-! ## C6: CORS headers on every response -/

theorem CorsInvariant_ApplyCORS (w : ResponseWriter) (h : w.status = none) :
    CorsInvariant (ApplyCORS w) :=
  ⟨HasCORS_ApplyCORS w, fun hs => absurd (by rw [ApplyCORS_status, h]) hs⟩

theorem CorsInvariant_SetHeader_contentType (w : ResponseWriter) (v : String)
    (h : CorsInvariant w) : CorsInvariant (w.SetHeader "Content-Type" v) :=
  ⟨HasCORS_SetHeader_contentType w v h.1, h.2⟩

theorem CorsInvariant_WriteHeader (w : ResponseWriter) (code : Nat) (h : CorsInvariant w) :
    CorsInvariant (w.WriteHeader code) := by
  unfold ResponseWriter.WriteHeader
  cases hs : w.status with
  | some c => exact h
  | none => exact ⟨h.1, fun _ => h.1⟩

theorem CorsInvariant_Write (w : ResponseWriter) (doc : Json) (h : CorsInvariant w) :
    CorsInvariant (w.Write doc) := by
  have h1 := CorsInvariant_WriteHeader w 200 h
  exact ⟨h1.1, h1.2⟩

theorem CorsInvariant_SuccessResponse (env : Env) (w : ResponseWriter) (data : Json)
    (status : Nat) (h : CorsInvariant w) : CorsInvariant (SuccessResponse env w data status) :=
  CorsInvariant_Write _ _
    (CorsInvariant_WriteHeader _ _ (CorsInvariant_SetHeader_contentType _ _ h))

theorem CorsInvariant_ErrorResponse (env : Env) (w : ResponseWriter) (message : String)
    (status : Nat) (details : Json) (h : CorsInvariant w) :
    CorsInvariant (ErrorResponse env w message status details) :=
  CorsInvariant_Write _ _
    (CorsInvariant_WriteHeader _ _ (CorsInvariant_SetHeader_contentType _ _ h))

theorem CorsInvariant_WritesEnvelopes (w w1 : ResponseWriter) (hw : WritesEnvelopes w w1)
    (h : CorsInvariant w) : CorsInvariant w1 := by
  induction hw with
  | nothing => exact h
  | success env w1 data status _ ih => exact CorsInvariant_SuccessResponse env w1 data status ih
  | error env w1 message status details _ ih =>
    exact CorsInvariant_ErrorResponse env w1 message status details ih

theorem HasCORS_finish (w : ResponseWriter) (h : CorsInvariant w) : HasCORS w.finish.header := by
  unfold ResponseWriter.finish
  cases hs : w.status with
  | some c => exact h.2 (by rw [hs]; simp)
  | none => exact h.1

/-- C6: with CORS enabled, every response of the pipeline carries the four CORS
headers with the values of `ApplyCORS`, whichever stage produced it (preflight 200,
405, 401) and whatever the business handler answered through `SuccessResponse` and
`ErrorResponse`; and the pipeline fails to answer only when the business handler
itself does. -/
theorem cors_headers_on_every_response (env : Env) (handler : HandlerFunc) (config : Config)
    (r : Request) (hc : config.EnableCORS = true)
    (hh : ∀ (w : ResponseWriter) (r1 : Request) (w1 : ResponseWriter),
      handler w r1 = some w1 → WritesEnvelopes w w1) :
    (∀ w1 : ResponseWriter,
      CreateHandler env handler config ResponseWriter.fresh r = some w1 →
        HasCORS w1.finish.header) ∧
    (CreateHandler env handler config ResponseWriter.fresh r = none →
      ∃ (w : ResponseWriter) (r1 : Request), handler w r1 = none) := by
  have h0 : CorsInvariant (ApplyCORS ResponseWriter.fresh) := CorsInvariant_ApplyCORS _ rfl
  rw [CreateHandler_eq]
  simp only [hc, if_true, true_and]
  by_cases h1 : r.Method = "OPTIONS"
  · simp only [h1, if_true]
    refine ⟨fun w1 hw => ?_, fun hn => by cases hn⟩
    cases hw
    exact HasCORS_finish _ (CorsInvariant_WriteHeader _ _ (CorsInvariant_ApplyCORS _ rfl))
  · simp only [h1, if_false]
    by_cases h2 : config.AllowedMethods ≠ [] ∧ r.Method ∉ config.AllowedMethods
    · rw [if_pos h2]
      refine ⟨fun w1 hw => ?_, fun hn => by cases hn⟩
      cases hw
      exact HasCORS_finish _ (CorsInvariant_ErrorResponse _ _ _ _ _ h0)
    · rw [if_neg h2]
      by_cases h3 : config.RequireAuth = true
      · rw [if_pos h3]
        rcases ha : AuthenticateRequest r with ⟨user, _ | e⟩
        · refine ⟨fun w1 hw => ?_, fun hn => ⟨_, _, hn⟩⟩
          exact HasCORS_finish _ (CorsInvariant_WritesEnvelopes _ _ (hh _ _ _ hw) h0)
        · refine ⟨fun w1 hw => ?_, fun hn => by cases hn⟩
          cases hw
          exact HasCORS_finish _ (CorsInvariant_ErrorResponse _ _ _ _ _ h0)
      · rw [if_neg h3]
        refine ⟨fun w1 hw => ?_, fun hn => ⟨_, _, hn⟩⟩
        exact HasCORS_finish _ (CorsInvariant_WritesEnvelopes _ _ (hh _ _ _ hw) h0)

theorem writes_success (env : Env) (w : ResponseWriter) (data : Json) (status : Nat) :
    WritesEnvelopes w (SuccessResponse env w data status) :=
  WritesEnvelopes.success env w data status WritesEnvelopes.nothing

theorem writes_error (env : Env) (w : ResponseWriter) (message : String) (status : Nat)
    (details : Json) : WritesEnvelopes w (ErrorResponse env w message status details) :=
  WritesEnvelopes.error env w message status details WritesEnvelopes.nothing

theorem route_handler_writes_envelopes (route : Route) (env : Env) (w : ResponseWriter)
    (r : Request) (w1 : ResponseWriter) (h : route.handler env w r = some w1) :
    WritesEnvelopes w w1 := by
  cases route
  · simp only [Route.handler, transactions.transactionHandler,
      transactions.handleGetTransactions, transactions.handleCreateTransaction,
      transactions.handleUpdateTransaction, transactions.handleDeleteTransaction] at h
    repeat' split at h
    all_goals cases h
    all_goals first
      | with_reducible exact writes_success _ _ _ _
      | with_reducible exact writes_error _ _ _ _ _
  · simp only [Route.handler, budgets.budgetHandler,
      budgets.handleGetBudgets, budgets.handleCreateBudget,
      budgets.handleUpdateBudget, budgets.handleDeleteBudget] at h
    repeat' split at h
    all_goals cases h
    all_goals first
      | with_reducible exact writes_success _ _ _ _
      | with_reducible exact writes_error _ _ _ _ _
  · simp only [Route.handler, analytics.analyticsHandler,
      analytics.handleSummaryAnalytics, analytics.handleCategoryAnalytics,
      analytics.handleTrendAnalytics] at h
    repeat' split at h
    all_goals cases h
    all_goals first
      | with_reducible exact writes_success _ _ _ _
      | with_reducible exact writes_error _ _ _ _ _
  · simp only [Route.handler, users.userHandler,
      users.handleGetProfile, users.handleUpdateProfile, users.handleDeleteAccount] at h
    repeat' split at h
    all_goals cases h
    all_goals first
      | with_reducible exact writes_success _ _ _ _
      | with_reducible exact writes_error _ _ _ _ _

/-- Witness of `cors_headers_on_every_response`: the transactions route, on a POST
request with a bearer token. -/
theorem cors_headers_on_every_response_witness :
    (∀ w1 : ResponseWriter,
      CreateHandler sampleEnv (Route.transactions.handler sampleEnv) transactions.config
          ResponseWriter.fresh (sampleRequest "POST" ["Bearer t"]) = some w1 →
        HasCORS w1.finish.header) ∧
    (CreateHandler sampleEnv (Route.transactions.handler sampleEnv) transactions.config
        ResponseWriter.fresh (sampleRequest "POST" ["Bearer t"]) = none →
      ∃ (w : ResponseWriter) (r1 : Request),
        Route.transactions.handler sampleEnv w r1 = none) :=
  cors_headers_on_every_response sampleEnv (Route.transactions.handler sampleEnv)
    transactions.config (sampleRequest "POST" ["Bearer t"]) rfl
    (route_handler_writes_envelopes Route.transactions sampleEnv)

/-! ## C7: creating a transaction -/

theorem handleCreateTransaction_invalid_amount (env : Env) (w : ResponseWriter) (r : Request)
    (input : CreateTransactionInput) (user : Option User)
    (hp : env.decodeTransactionInput r.Body = .ok input) (h1 : input.Amount ≤ 0) :
    transactions.handleCreateTransaction env w r user =
      some (ErrorResponse env w "Amount must be positive" 400 Json.null) := by
  unfold transactions.handleCreateTransaction
  rw [hp]
  simp only [h1, if_true]

theorem handleCreateTransaction_invalid_category (env : Env) (w : ResponseWriter)
    (r : Request) (input : CreateTransactionInput) (user : Option User)
    (hp : env.decodeTransactionInput r.Body = .ok input) (h1 : ¬ input.Amount ≤ 0)
    (h2 : input.Category = "") :
    transactions.handleCreateTransaction env w r user =
      some (ErrorResponse env w "Category is required" 400 Json.null) := by
  unfold transactions.handleCreateTransaction
  rw [hp]
  simp only [h1, h2, if_true, if_false]

theorem handleCreateTransaction_invalid_type (env : Env) (w : ResponseWriter) (r : Request)
    (input : CreateTransactionInput) (user : Option User)
    (hp : env.decodeTransactionInput r.Body = .ok input) (h1 : ¬ input.Amount ≤ 0)
    (h2 : ¬ input.Category = "")
    (h3 : input.Type_ ≠ "income" ∧ input.Type_ ≠ "expense") :
    transactions.handleCreateTransaction env w r user =
      some (ErrorResponse env w "Type must be 'income' or 'expense'" 400 Json.null) := by
  unfold transactions.handleCreateTransaction
  rw [hp]
  simp only [h1, h2, if_false]
  rw [if_pos h3]

theorem handleCreateTransaction_valid (env : Env) (w : ResponseWriter) (r : Request)
    (input : CreateTransactionInput) (u : User)
    (hp : env.decodeTransactionInput r.Body = .ok input) (h1 : ¬ input.Amount ≤ 0)
    (h2 : ¬ input.Category = "")
    (h3 : ¬ (input.Type_ ≠ "income" ∧ input.Type_ ≠ "expense")) :
    transactions.handleCreateTransaction env w r (some u) =
      some (SuccessResponse env w
        (Json.obj [("transaction", Json.obj
          [("amount", Json.num input.Amount),
           ("category", Json.str input.Category),
           ("created_at", Json.str "2024-01-15T10:00:00Z"),
           ("date", Json.str input.Date),
           ("description", Json.str input.Description),
           ("id", Json.str "trans-new"),
           ("merchant", Json.str input.Merchant),
           ("payment_method", Json.str input.PaymentMethod),
           ("type", Json.str input.Type_),
           ("user_id", Json.str u.ID)])]) 201) := by
  unfold transactions.handleCreateTransaction
  rw [hp]
  simp only [h1, h2, if_false]
  rw [if_neg h3]

/-- C7: when the body decodes to `input` and the caller is `u`, `handleCreateTransaction`
answers; the status is 201 exactly when amount > 0, the category is non-empty and the
type is income or expense, and 400 otherwise; a 201 answer is a success envelope whose
`transaction` object echoes the amount, category and type of the input and carries the
id of the caller. -/
theorem create_transaction_validation (env : Env) (w : ResponseWriter) (r : Request)
    (input : CreateTransactionInput) (u : User)
    (hs : w.status = none) (hb : w.body = [])
    (hp : env.decodeTransactionInput r.Body = .ok input) :
    ∃ w1 : ResponseWriter,
      transactions.handleCreateTransaction env w r (some u) = some w1 ∧
      (w1.finish.status = 201 ↔ ValidTransactionInput input) ∧
      (¬ ValidTransactionInput input → w1.finish.status = 400) ∧
      (ValidTransactionInput input →
        ∃ transaction : Json,
          w1.finish.body = [successDoc env (Json.obj [("transaction", transaction)])] ∧
          transaction.field "amount" = some (Json.num input.Amount) ∧
          transaction.field "category" = some (Json.str input.Category) ∧
          transaction.field "type" = some (Json.str input.Type_) ∧
          transaction.field "user_id" = some (Json.str u.ID)) := by
  by_cases h1 : input.Amount ≤ 0
  · have hv : ¬ ValidTransactionInput input := fun h => absurd h.1 (not_lt.2 h1)
    refine ⟨_, handleCreateTransaction_invalid_amount env w r input _ hp h1, ?_, ?_,
      fun h => absurd h hv⟩
    · rw [finish_ErrorResponse _ _ _ _ _ hs]; simp [hv]
    · intro _; rw [finish_ErrorResponse _ _ _ _ _ hs]
  · by_cases h2 : input.Category = ""
    · have hv : ¬ ValidTransactionInput input := fun h => absurd h2 h.2.1
      refine ⟨_, handleCreateTransaction_invalid_category env w r input _ hp h1 h2, ?_, ?_,
        fun h => absurd h hv⟩
      · rw [finish_ErrorResponse _ _ _ _ _ hs]; simp [hv]
      · intro _; rw [finish_ErrorResponse _ _ _ _ _ hs]
    · by_cases h3 : input.Type_ ≠ "income" ∧ input.Type_ ≠ "expense"
      · have hv : ¬ ValidTransactionInput input := by
          rintro ⟨_, _, h | h⟩
          · exact h3.1 h
          · exact h3.2 h
        refine ⟨_, handleCreateTransaction_invalid_type env w r input _ hp h1 h2 h3, ?_, ?_,
          fun h => absurd h hv⟩
        · rw [finish_ErrorResponse _ _ _ _ _ hs]; simp [hv]
        · intro _; rw [finish_ErrorResponse _ _ _ _ _ hs]
      · have hv : ValidTransactionInput input := by
          refine ⟨not_le.1 h1, h2, ?_⟩
          by_contra hc
          exact h3 ⟨fun h => hc (Or.inl h), fun h => hc (Or.inr h)⟩
        refine ⟨_, handleCreateTransaction_valid env w r input u hp h1 h2 h3, ?_,
          fun h => absurd hv h, fun _ => ?_⟩
        · rw [finish_SuccessResponse _ _ _ _ hs]; simp [hv]
        · rw [finish_SuccessResponse _ _ _ _ hs, hb]
          exact ⟨_, rfl, by simp [Json.field], by simp [Json.field], by simp [Json.field],
            by simp [Json.field]⟩

/-- Witness of `create_transaction_validation`: the groceries input, from the writer
the pipeline hands over. -/
theorem create_transaction_validation_witness :
    ∃ w1 : ResponseWriter,
      transactions.handleCreateTransaction (envDecodingTransaction groceriesInput)
        (ApplyCORS ResponseWriter.fresh) (sampleRequest "POST" ["Bearer t"]) (some mockUser)
        = some w1 ∧
      (w1.finish.status = 201 ↔ ValidTransactionInput groceriesInput) ∧
      (¬ ValidTransactionInput groceriesInput → w1.finish.status = 400) ∧
      (ValidTransactionInput groceriesInput →
        ∃ transaction : Json,
          w1.finish.body = [successDoc (envDecodingTransaction groceriesInput)
            (Json.obj [("transaction", transaction)])] ∧
          transaction.field "amount" = some (Json.num groceriesInput.Amount) ∧
          transaction.field "category" = some (Json.str groceriesInput.Category) ∧
          transaction.field "type" = some (Json.str groceriesInput.Type_) ∧
          transaction.field "user_id" = some (Json.str mockUser.ID)) :=
  create_transaction_validation (envDecodingTransaction groceriesInput)
    (ApplyCORS ResponseWriter.fresh) (sampleRequest "POST" ["Bearer t"]) groceriesInput
    mockUser rfl rfl rfl

/-! ## C8: creating a budget -/

theorem handleCreateBudget_invalid_category (env : Env) (w : ResponseWriter) (r : Request)
    (input : CreateBudgetInput) (user : Option User)
    (hp : env.decodeBudgetInput r.Body = .ok input) (h1 : input.Category = "") :
    budgets.handleCreateBudget env w r user =
      some (ErrorResponse env w "Category is required" 400 Json.null) := by
  unfold budgets.handleCreateBudget
  rw [hp]
  simp only [h1, if_true]

theorem handleCreateBudget_invalid_amount (env : Env) (w : ResponseWriter) (r : Request)
    (input : CreateBudgetInput) (user : Option User)
    (hp : env.decodeBudgetInput r.Body = .ok input) (h1 : ¬ input.Category = "")
    (h2 : input.Amount ≤ 0) :
    budgets.handleCreateBudget env w r user =
      some (ErrorResponse env w "Amount must be positive" 400 Json.null) := by
  unfold budgets.handleCreateBudget
  rw [hp]
  simp only [h1, h2, if_true, if_false]

theorem handleCreateBudget_invalid_period (env : Env) (w : ResponseWriter) (r : Request)
    (input : CreateBudgetInput) (user : Option User)
    (hp : env.decodeBudgetInput r.Body = .ok input) (h1 : ¬ input.Category = "")
    (h2 : ¬ input.Amount ≤ 0)
    (h3 : input.Period ≠ "weekly" ∧ input.Period ≠ "monthly" ∧ input.Period ≠ "yearly") :
    budgets.handleCreateBudget env w r user =
      some (ErrorResponse env w "Period must be 'weekly', 'monthly', or 'yearly'" 400
        Json.null) := by
  unfold budgets.handleCreateBudget
  rw [hp]
  simp only [h1, h2, if_false]
  rw [if_pos h3]

theorem handleCreateBudget_valid (env : Env) (w : ResponseWriter) (r : Request)
    (input : CreateBudgetInput) (u : User)
    (hp : env.decodeBudgetInput r.Body = .ok input) (h1 : ¬ input.Category = "")
    (h2 : ¬ input.Amount ≤ 0)
    (h3 : ¬ (input.Period ≠ "weekly" ∧ input.Period ≠ "monthly" ∧ input.Period ≠ "yearly")) :
    budgets.handleCreateBudget env w r (some u) =
      some (SuccessResponse env w
        (Json.obj [("budget", Json.obj
          [("alert_threshold", Json.num input.AlertThreshold),
           ("amount", Json.num input.Amount),
           ("category", Json.str input.Category),
           ("created_at", Json.str "2024-01-15T10:00:00Z"),
           ("id", Json.str "budget-new"),
           ("period", Json.str input.Period),
           ("user_id", Json.str u.ID)])]) 201) := by
  unfold budgets.handleCreateBudget
  rw [hp]
  simp only [h1, h2, if_false]
  rw [if_neg h3]

/-- C8: when the body decodes to `input` and the caller is `u`, `handleCreateBudget`
answers; the status is 201 exactly when the category is non-empty, amount > 0 and the
period is weekly, monthly or yearly, and 400 otherwise; an input with an empty category
is answered 400 with the single error envelope `Category is required`. -/
theorem create_budget_validation (env : Env) (w : ResponseWriter) (r : Request)
    (input : CreateBudgetInput) (u : User)
    (hs : w.status = none) (hb : w.body = [])
    (hp : env.decodeBudgetInput r.Body = .ok input) :
    ∃ w1 : ResponseWriter,
      budgets.handleCreateBudget env w r (some u) = some w1 ∧
      (w1.finish.status = 201 ↔ ValidBudgetInput input) ∧
      (¬ ValidBudgetInput input → w1.finish.status = 400) ∧
      (input.Category = "" →
        w1.finish.status = 400 ∧
        w1.finish.body = [errorDoc env "Category is required" Json.null] ∧
        (errorDoc env "Category is required" Json.null).field "error"
          = some (Json.str "Category is required")) := by
  by_cases h1 : input.Category = ""
  · have hv : ¬ ValidBudgetInput input := fun h => absurd h1 h.1
    refine ⟨_, handleCreateBudget_invalid_category env w r input _ hp h1, ?_, ?_, fun _ => ?_⟩
    · rw [finish_ErrorResponse _ _ _ _ _ hs]; simp [hv]
    · intro _; rw [finish_ErrorResponse _ _ _ _ _ hs]
    · rw [finish_ErrorResponse _ _ _ _ _ hs, hb]
      exact ⟨rfl, rfl, by simp [errorDoc, Response.toJson, Json.field, Json.isNull]⟩
  · by_cases h2 : input.Amount ≤ 0
    · have hv : ¬ ValidBudgetInput input := fun h => absurd h.2.1 (not_lt.2 h2)
      refine ⟨_, handleCreateBudget_invalid_amount env w r input _ hp h1 h2, ?_, ?_,
        fun h => absurd h h1⟩
      · rw [finish_ErrorResponse _ _ _ _ _ hs]; simp [hv]
      · intro _; rw [finish_ErrorResponse _ _ _ _ _ hs]
    · by_cases h3 : input.Period ≠ "weekly" ∧ input.Period ≠ "monthly" ∧
          input.Period ≠ "yearly"
      · have hv : ¬ ValidBudgetInput input := by
          rintro ⟨_, _, h | h | h⟩
          · exact h3.1 h
          · exact h3.2.1 h
          · exact h3.2.2 h
        refine ⟨_, handleCreateBudget_invalid_period env w r input _ hp h1 h2 h3, ?_, ?_,
          fun h => absurd h h1⟩
        · rw [finish_ErrorResponse _ _ _ _ _ hs]; simp [hv]
        · intro _; rw [finish_ErrorResponse _ _ _ _ _ hs]
      · have hv : ValidBudgetInput input := by
          refine ⟨h1, not_le.1 h2, ?_⟩
          by_contra hc
          exact h3 ⟨fun h => hc (Or.inl h), fun h => hc (Or.inr (Or.inl h)),
            fun h => hc (Or.inr (Or.inr h))⟩
        refine ⟨_, handleCreateBudget_valid env w r input u hp h1 h2 h3, ?_,
          fun h => absurd hv h, fun h => absurd h h1⟩
        rw [finish_SuccessResponse _ _ _ _ hs]; simp [hv]

/-- Witness of `create_budget_validation`: the example of the specification, an empty
category with amount 100 and period monthly. -/
theorem create_budget_validation_witness :
    ∃ w1 : ResponseWriter,
      budgets.handleCreateBudget (envDecodingBudget emptyCategoryBudget)
        (ApplyCORS ResponseWriter.fresh) (sampleRequest "POST" ["Bearer t"]) (some mockUser)
        = some w1 ∧
      (w1.finish.status = 201 ↔ ValidBudgetInput emptyCategoryBudget) ∧
      (¬ ValidBudgetInput emptyCategoryBudget → w1.finish.status = 400) ∧
      (emptyCategoryBudget.Category = "" →
        w1.finish.status = 400 ∧
        w1.finish.body =
          [errorDoc (envDecodingBudget emptyCategoryBudget) "Category is required" Json.null] ∧
        (errorDoc (envDecodingBudget emptyCategoryBudget) "Category is required"
            Json.null).field "error"
          = some (Json.str "Category is required")) :=
  create_budget_validation (envDecodingBudget emptyCategoryBudget)
    (ApplyCORS ResponseWriter.fresh) (sampleRequest "POST" ["Bearer t"]) emptyCategoryBudget
    mockUser rfl rfl rfl

/-! ## C9: what an invalid input is told -/

theorem errorDoc_field_error (env : Env) (message : String) (hm : message ≠ "") :
    (errorDoc env message Json.null).field "error" = some (Json.str message) := by
  simp [errorDoc, Response.toJson, Json.field, Json.isNull, hm]

theorem errorDoc_field_details (env : Env) (message : String) :
    (errorDoc env message Json.null).field "details" = none := by
  by_cases hm : message = "" <;>
    simp [errorDoc, Response.toJson, Json.field, Json.isNull, hm]

theorem not_reportsViolation_other (env : Env) (message other : String) (hm : message ≠ "")
    (hne : other ≠ message) : ¬ ReportsViolation (errorDoc env message Json.null) other := by
  rintro (h | h)
  · rw [errorDoc_field_error env message hm] at h
    injection h with h
    injection h with h
    exact hne h.symm
  · rw [errorDoc_field_details] at h
    cases h

/-- C9, as stated, fails: an input with amount 0 and an empty category violates two
rules, and the answer of `handleCreateTransaction` is the single envelope
`Amount must be positive` without details; the empty category is not reported. -/
theorem invalid_input_reports_one_violation :
    transactionViolations doublyInvalidInput
      = ["Amount must be positive", "Category is required"] ∧
    (transactions.handleCreateTransaction (envDecodingTransaction doublyInvalidInput)
        ResponseWriter.fresh (sampleRequest "POST" ["Bearer t"]) (some mockUser)).map
      (fun w => (w.finish.status, w.finish.body))
      = some (400, [errorDoc (envDecodingTransaction doublyInvalidInput)
          "Amount must be positive" Json.null]) ∧
    ¬ ReportsAll
        [errorDoc (envDecodingTransaction doublyInvalidInput) "Amount must be positive"
          Json.null]
        (transactionViolations doublyInvalidInput) := by
  have hv : transactionViolations doublyInvalidInput
      = ["Amount must be positive", "Category is required"] := by
    simp [transactionViolations, doublyInvalidInput]
  refine ⟨hv, ?_, ?_⟩
  · rw [handleCreateTransaction_invalid_amount _ _ _ doublyInvalidInput _ rfl
      (by simp [doublyInvalidInput])]
    simp only [Option.map_some']
    rw [finish_ErrorResponse _ _ _ _ _ rfl]
    rfl
  · intro h
    rw [hv] at h
    obtain ⟨doc, hd, hr⟩ := h "Category is required" (by simp)
    simp only [List.mem_singleton] at hd
    subst hd
    exact not_reportsViolation_other _ _ _ (by decide) (by decide) hr

theorem mem_ite_singleton (c : Prop) [Decidable c] (a x : String)
    (h : x ∈ (if c then [a] else [])) : x = a := by
  split at h
  · simpa using h
  · cases h

/-- C9, amended: both create handlers stop at the first rule that fails, in the
order in which they check (transaction: amount, category, type; budget: category,
amount, period): the answer to an invalid input is 400 with one error envelope holding
the message of the first violated rule and no details, and no other violated rule is
reported. -/
theorem invalid_input_reports_first_violation (env : Env) (w : ResponseWriter) (r : Request)
    (user : Option User) (hs : w.status = none) (hb : w.body = []) :
    (∀ (input : CreateTransactionInput) (m : String) (rest : List String),
      env.decodeTransactionInput r.Body = .ok input →
      transactionViolations input = m :: rest →
      ∃ w1 : ResponseWriter,
        transactions.handleCreateTransaction env w r user = some w1 ∧
        w1.finish.status = 400 ∧
        w1.finish.body = [errorDoc env m Json.null] ∧
        (errorDoc env m Json.null).field "details" = none ∧
        ∀ other ∈ rest, ¬ ReportsViolation (errorDoc env m Json.null) other) ∧
    (∀ (input : CreateBudgetInput) (m : String) (rest : List String),
      env.decodeBudgetInput r.Body = .ok input →
      budgetViolations input = m :: rest →
      ∃ w1 : ResponseWriter,
        budgets.handleCreateBudget env w r user = some w1 ∧
        w1.finish.status = 400 ∧
        w1.finish.body = [errorDoc env m Json.null] ∧
        (errorDoc env m Json.null).field "details" = none ∧
        ∀ other ∈ rest, ¬ ReportsViolation (errorDoc env m Json.null) other) := by
  constructor
  · intro input m rest hp hv
    unfold transactionViolations at hv
    by_cases h1 : input.Amount ≤ 0
    · refine ⟨_, handleCreateTransaction_invalid_amount env w r input user hp h1, ?_⟩
      rw [finish_ErrorResponse _ _ _ _ _ hs, hb]
      rw [if_pos h1, List.append_assoc, List.singleton_append] at hv
      injection hv with hm hrest
      subst hm
      subst hrest
      refine ⟨rfl, rfl, errorDoc_field_details _ _, fun other ho => ?_⟩
      apply not_reportsViolation_other _ _ _ (by decide)
      rcases List.mem_append.1 ho with ho | ho
      · rw [mem_ite_singleton _ _ _ ho]; decide
      · rw [mem_ite_singleton _ _ _ ho]; decide
    · by_cases h2 : input.Category = ""
      · refine ⟨_, handleCreateTransaction_invalid_category env w r input user hp h1 h2, ?_⟩
        rw [finish_ErrorResponse _ _ _ _ _ hs, hb]
        rw [if_neg h1, if_pos h2, List.nil_append, List.singleton_append] at hv
        injection hv with hm hrest
        subst hm
        subst hrest
        refine ⟨rfl, rfl, errorDoc_field_details _ _, fun other ho => ?_⟩
        apply not_reportsViolation_other _ _ _ (by decide)
        rw [mem_ite_singleton _ _ _ ho]; decide
      · by_cases h3 : input.Type_ ≠ "income" ∧ input.Type_ ≠ "expense"
        · refine ⟨_, handleCreateTransaction_invalid_type env w r input user hp h1 h2 h3, ?_⟩
          rw [finish_ErrorResponse _ _ _ _ _ hs, hb]
          rw [if_neg h1, if_neg h2, if_pos h3, List.nil_append, List.nil_append] at hv
          injection hv with hm hrest
          subst hm
          subst hrest
          exact ⟨rfl, rfl, errorDoc_field_details _ _, fun other ho => by cases ho⟩
        · rw [if_neg h1, if_neg h2, if_neg h3] at hv
          cases hv
  · intro input m rest hp hv
    unfold budgetViolations at hv
    by_cases h1 : input.Category = ""
    · refine ⟨_, handleCreateBudget_invalid_category env w r input user hp h1, ?_⟩
      rw [finish_ErrorResponse _ _ _ _ _ hs, hb]
      rw [if_pos h1, List.append_assoc, List.singleton_append] at hv
      injection hv with hm hrest
      subst hm
      subst hrest
      refine ⟨rfl, rfl, errorDoc_field_details _ _, fun other ho => ?_⟩
      apply not_reportsViolation_other _ _ _ (by decide)
      rcases List.mem_append.1 ho with ho | ho
      · rw [mem_ite_singleton _ _ _ ho]; decide
      · rw [mem_ite_singleton _ _ _ ho]; decide
    · by_cases h2 : input.Amount ≤ 0
      · refine ⟨_, handleCreateBudget_invalid_amount env w r input user hp h1 h2, ?_⟩
        rw [finish_ErrorResponse _ _ _ _ _ hs, hb]
        rw [if_neg h1, if_pos h2, List.nil_append, List.singleton_append] at hv
        injection hv with hm hrest
        subst hm
        subst hrest
        refine ⟨rfl, rfl, errorDoc_field_details _ _, fun other ho => ?_⟩
        apply not_reportsViolation_other _ _ _ (by decide)
        rw [mem_ite_singleton _ _ _ ho]; decide
      · by_cases h3 : input.Period ≠ "weekly" ∧ input.Period ≠ "monthly" ∧
            input.Period ≠ "yearly"
        · refine ⟨_, handleCreateBudget_invalid_period env w r input user hp h1 h2 h3, ?_⟩
          rw [finish_ErrorResponse _ _ _ _ _ hs, hb]
          rw [if_neg h1, if_neg h2, if_pos h3, List.nil_append, List.nil_append] at hv
          injection hv with hm hrest
          subst hm
          subst hrest
          exact ⟨rfl, rfl, errorDoc_field_details _ _, fun other ho => by cases ho⟩
        · rw [if_neg h1, if_neg h2, if_neg h3] at hv
          cases hv

/-- Witness of `invalid_input_reports_first_violation`: the writer handed over by the
pipeline, and the input with amount 0 and an empty category. -/
theorem invalid_input_reports_first_violation_witness :
    ∃ w1 : ResponseWriter,
      transactions.handleCreateTransaction (envDecodingTransaction doublyInvalidInput)
        (ApplyCORS ResponseWriter.fresh) (sampleRequest "POST" ["Bearer t"]) (some mockUser)
        = some w1 ∧
      w1.finish.status = 400 ∧
      w1.finish.body = [errorDoc (envDecodingTransaction doublyInvalidInput)
        "Amount must be positive" Json.null] ∧
      (errorDoc (envDecodingTransaction doublyInvalidInput) "Amount must be positive"
        Json.null).field "details" = none ∧
      ∀ other ∈ ["Category is required"],
        ¬ ReportsViolation (errorDoc (envDecodingTransaction doublyInvalidInput)
          "Amount must be positive" Json.null) other :=
  (invalid_input_reports_first_violation (envDecodingTransaction doublyInvalidInput)
    (ApplyCORS ResponseWriter.fresh) (sampleRequest "POST" ["Bearer t"]) (some mockUser)
    rfl rfl).1 doublyInvalidInput "Amount must be positive" ["Category is required"] rfl
    (by simp [transactionViolations, doublyInvalidInput])

/-! ## C10: deleting the account -/

theorem boolAt_confirmed (input : List (String × Json)) (key : String) :
    users.boolAt input key = (true, true) ↔ mapIndex input key = some (Json.bool true) := by
  unfold users.boolAt
  cases h : mapIndex input key with
  | none => simp
  | some v =>
    cases v with
    | bool b => cases b <;> simp
    | null => simp
    | num q => simp
    | str t => simp
    | arr l => simp
    | obj kvs => simp

theorem boolAt_cases (input : List (String × Json)) (key : String) :
    users.boolAt input key = (true, true) ∨ users.boolAt input key = (false, true) ∨
      users.boolAt input key = (false, false) := by
  unfold users.boolAt
  cases h : mapIndex input key with
  | none => simp
  | some v =>
    cases v with
    | bool b => cases b <;> simp
    | null => simp
    | num q => simp
    | str t => simp
    | arr l => simp
    | obj kvs => simp

/-- C10: when the body decodes to the object `input`, `handleDeleteAccount` answers;
the status is 200, with the message `Account deleted successfully`, exactly when
`input["confirm"]` is the boolean true; in every other case (the key is absent, as in
the empty object, or holds false, or holds a value that is not a boolean) the answer is
400 with the error `Account deletion requires confirmation` and the hint
`Set 'confirm': true in request body`. -/
theorem delete_account_requires_confirmation (env : Env) (w : ResponseWriter) (r : Request)
    (user : Option User) (input : List (String × Json))
    (hs : w.status = none) (hb : w.body = [])
    (hp : env.decodeMap r.Body = .ok input) :
    ∃ w1 : ResponseWriter,
      users.handleDeleteAccount env w r user = some w1 ∧
      (w1.finish.status = 200 ↔ mapIndex input "confirm" = some (Json.bool true)) ∧
      (mapIndex input "confirm" = some (Json.bool true) →
        w1.finish.body =
          [successDoc env (Json.obj [("message", Json.str "Account deleted successfully")])]) ∧
      (mapIndex input "confirm" ≠ some (Json.bool true) →
        w1.finish.status = 400 ∧
        w1.finish.body =
          [errorDoc env "Account deletion requires confirmation"
            (Json.obj [("hint", Json.str "Set 'confirm': true in request body")])]) := by
  unfold users.handleDeleteAccount
  rw [hp]
  rcases boolAt_cases input "confirm" with hc | hc | hc
  · have hm := (boolAt_confirmed input "confirm").1 hc
    refine ⟨SuccessResponse env w
      (Json.obj [("message", Json.str "Account deleted successfully")]) 200, ?_, ?_, ?_, ?_⟩
    · simp [hc]
    · rw [finish_SuccessResponse _ _ _ _ hs]; simp [hm]
    · intro _; rw [finish_SuccessResponse _ _ _ _ hs, hb]; rfl
    · intro h; exact absurd hm h
  · have hm : mapIndex input "confirm" ≠ some (Json.bool true) := by
      intro h
      rw [(boolAt_confirmed input "confirm").2 h] at hc
      simp at hc
    refine ⟨ErrorResponse env w "Account deletion requires confirmation" 400
      (Json.obj [("hint", Json.str "Set 'confirm': true in request body")]), ?_, ?_, ?_, ?_⟩
    · simp [hc]
    · rw [finish_ErrorResponse _ _ _ _ _ hs]; simp [hm]
    · intro h; exact absurd h hm
    · intro _; rw [finish_ErrorResponse _ _ _ _ _ hs, hb]; exact ⟨rfl, rfl⟩
  · have hm : mapIndex input "confirm" ≠ some (Json.bool true) := by
      intro h
      rw [(boolAt_confirmed input "confirm").2 h] at hc
      simp at hc
    refine ⟨ErrorResponse env w "Account deletion requires confirmation" 400
      (Json.obj [("hint", Json.str "Set 'confirm': true in request body")]), ?_, ?_, ?_, ?_⟩
    · simp [hc]
    · rw [finish_ErrorResponse _ _ _ _ _ hs]; simp [hm]
    · intro h; exact absurd h hm
    · intro _; rw [finish_ErrorResponse _ _ _ _ _ hs, hb]; exact ⟨rfl, rfl⟩

/-- Witness of `delete_account_requires_confirmation`: the example of the
specification, a DELETE whose body is the empty object. -/
theorem delete_account_requires_confirmation_witness :
    ∃ w1 : ResponseWriter,
      users.handleDeleteAccount (envDecodingMap []) (ApplyCORS ResponseWriter.fresh)
        (sampleRequest "DELETE" ["Bearer t"]) (some mockUser) = some w1 ∧
      (w1.finish.status = 200 ↔ mapIndex [] "confirm" = some (Json.bool true)) ∧
      (mapIndex [] "confirm" = some (Json.bool true) →
        w1.finish.body =
          [successDoc (envDecodingMap [])
            (Json.obj [("message", Json.str "Account deleted successfully")])]) ∧
      (mapIndex [] "confirm" ≠ some (Json.bool true) →
        w1.finish.status = 400 ∧
        w1.finish.body =
          [errorDoc (envDecodingMap []) "Account deletion requires confirmation"
            (Json.obj [("hint", Json.str "Set 'confirm': true in request body")])]) :=
  delete_account_requires_confirmation (envDecodingMap []) (ApplyCORS ResponseWriter.fresh)
    (sampleRequest "DELETE" ["Bearer t"]) (some mockUser) [] rfl rfl rfl

/-! ## C11: the identifier of PUT and DELETE -/

theorem jsonTextAux_succ_cons (skip b : Nat) (rest : List Nat) :
    jsonTextAux (skip + 1) (b :: rest) = jsonTextAux skip rest :=
  rfl

theorem queryGet_eq_empty_iff (r : Request) (key : String) :
    queryGet r.Query key = goString "" ↔ QueryParamMissing r key := by
  unfold queryGet QueryParamMissing
  cases h : r.Query key with
  | nil => simp [goString, utf8Encode]
  | cons v vs => simp

theorem pipeline_reaches_handler (env : Env) (handler : HandlerFunc) (config : Config)
    (r : Request) (hc : config.EnableCORS = true) (hreq : config.RequireAuth = true)
    (hno : r.Method ≠ "OPTIONS") (hm : r.Method ∈ config.AllowedMethods)
    (hb : IsBearerForm (valuesGet r.Header "Authorization")) :
    CreateHandler env handler config ResponseWriter.fresh r =
      handler (ApplyCORS ResponseWriter.fresh) (SetUserContext r (some mockUser)) := by
  rw [CreateHandler_eq, if_neg (fun h => hno h.2), if_neg (fun h => h.2 hm), if_pos hreq,
    AuthenticateRequest_bearer r hb]
  simp only [hc, if_true]

theorem analyticsHandler_dispatch (env : Env) (w : ResponseWriter) (r : Request)
    (user : Option User) (hu : r.ctxUser = some user) :
    analytics.analyticsHandler env w r =
      if GetQueryParam r "type" (goString "summary") = goString "summary" then
        some (SuccessResponse env w (Json.obj [("summary", analytics.summary.toJson)]) 200)
      else if GetQueryParam r "type" (goString "summary") = goString "category" then
        some (SuccessResponse env w
          (Json.obj [("categories",
            Json.arr (analytics.categories.map CategoryAnalytics.toJson))]) 200)
      else if GetQueryParam r "type" (goString "summary") = goString "trend" then
        some (SuccessResponse env w
          (Json.obj [("trend", Json.arr (analytics.trend.map TrendData.toJson))]) 200)
      else
        some (ErrorResponse env w "Invalid analytics type" 400 analyticsTypeDetails) := by
  simp only [analytics.analyticsHandler, GetUserFromContext, hu,
    analytics.handleSummaryAnalytics, analytics.handleCategoryAnalytics,
    analytics.handleTrendAnalytics, analyticsTypeDetails]

theorem GetQueryParam_missing (r : Request) (key : String) (defaultValue : GoString)
    (h : QueryParamMissing r key) : GetQueryParam r key defaultValue = defaultValue := by
  unfold GetQueryParam
  simp [(queryGet_eq_empty_iff r key).2 h]

theorem GetQueryParam_present (r : Request) (key : String) (defaultValue : GoString)
    (h : queryGet r.Query key ≠ goString "") :
    GetQueryParam r key defaultValue = queryGet r.Query key := by
  unfold GetQueryParam
  simp [h]

theorem mem_analyticsTypes_iff (v : GoString) :
    v ∈ analyticsTypes.map goString ↔
      (v = goString "summary" ∨ v = goString "category" ∨ v = goString "trend") := by
  simp [analyticsTypes]

/-- C12: for a request that carries a user in its context, `analyticsHandler` answers;
the status is 400 exactly when the `type` query parameter is non-empty and is none of
summary, category, trend, and that answer is the single error envelope
`Invalid analytics type` whose details are the object with the key `allowed` holding
exactly those three values; an absent or empty `type` gets the answer of
`type=summary`, and every other request is answered 200. -/
theorem analytics_type_validation (env : Env) (w : ResponseWriter) (r : Request)
    (user : Option User) (hs : w.status = none) (hb : w.body = [])
    (hu : r.ctxUser = some user) :
    ∃ w1 : ResponseWriter,
      analytics.analyticsHandler env w r = some w1 ∧
      (w1.finish.status = 400 ↔
        (queryGet r.Query "type" ≠ goString "" ∧
          queryGet r.Query "type" ∉ analyticsTypes.map goString)) ∧
      ((queryGet r.Query "type" ≠ goString "" ∧
          queryGet r.Query "type" ∉ analyticsTypes.map goString) →
        w1.finish.body = [errorDoc env "Invalid analytics type" analyticsTypeDetails] ∧
        (errorDoc env "Invalid analytics type" analyticsTypeDetails).field "details"
          = some (Json.obj [("allowed",
              Json.arr [Json.str "summary", Json.str "category", Json.str "trend"])])) ∧
      (QueryParamMissing r "type" →
        w1 = SuccessResponse env w (Json.obj [("summary", analytics.summary.toJson)]) 200) ∧
      ((QueryParamMissing r "type" ∨ queryGet r.Query "type" ∈ analyticsTypes.map goString) →
        w1.finish.status = 200) := by
  rw [analyticsHandler_dispatch env w r user hu]
  by_cases hm : queryGet r.Query "type" = goString ""
  · have hmiss := (queryGet_eq_empty_iff r "type").1 hm
    rw [GetQueryParam_missing r "type" (goString "summary") hmiss]
    refine ⟨_, if_pos rfl, ?_, ?_, fun _ => rfl, fun _ => ?_⟩
    · rw [finish_SuccessResponse _ _ _ _ hs]; simp [hm]
    · intro h; exact absurd hm h.1
    · rw [finish_SuccessResponse _ _ _ _ hs]
  · have hnm : ¬ QueryParamMissing r "type" :=
      fun h => hm ((queryGet_eq_empty_iff r "type").2 h)
    rw [GetQueryParam_present r "type" (goString "summary") hm]
    by_cases h1 : queryGet r.Query "type" = goString "summary"
    · have hmem : queryGet r.Query "type" ∈ analyticsTypes.map goString :=
        (mem_analyticsTypes_iff _).2 (Or.inl h1)
      refine ⟨_, if_pos h1, ?_, fun h => absurd hmem h.2, fun h => absurd h hnm, fun _ => ?_⟩
      · rw [finish_SuccessResponse _ _ _ _ hs]; simp [hmem]
      · rw [finish_SuccessResponse _ _ _ _ hs]
    · rw [if_neg h1]
      by_cases h2 : queryGet r.Query "type" = goString "category"
      · have hmem : queryGet r.Query "type" ∈ analyticsTypes.map goString :=
          (mem_analyticsTypes_iff _).2 (Or.inr (Or.inl h2))
        refine ⟨_, if_pos h2, ?_, fun h => absurd hmem h.2, fun h => absurd h hnm,
          fun _ => ?_⟩
        · rw [finish_SuccessResponse _ _ _ _ hs]; simp [hmem]
        · rw [finish_SuccessResponse _ _ _ _ hs]
      · rw [if_neg h2]
        by_cases h3 : queryGet r.Query "type" = goString "trend"
        · have hmem : queryGet r.Query "type" ∈ analyticsTypes.map goString :=
            (mem_analyticsTypes_iff _).2 (Or.inr (Or.inr h3))
          refine ⟨_, if_pos h3, ?_, fun h => absurd hmem h.2, fun h => absurd h hnm,
            fun _ => ?_⟩
          · rw [finish_SuccessResponse _ _ _ _ hs]; simp [hmem]
          · rw [finish_SuccessResponse _ _ _ _ hs]
        · have hmem : queryGet r.Query "type" ∉ analyticsTypes.map goString := by
            rw [mem_analyticsTypes_iff]
            rintro (h | h | h)
            · exact h1 h
            · exact h2 h
            · exact h3 h
          refine ⟨_, if_neg h3, ?_, fun _ => ?_, fun h => absurd h hnm, fun h => ?_⟩
          · rw [finish_ErrorResponse _ _ _ _ _ hs]
            exact ⟨fun _ => ⟨hm, hmem⟩, fun _ => rfl⟩
          · rw [finish_ErrorResponse _ _ _ _ _ hs, hb]
            exact ⟨rfl, by
              simp [errorDoc, Response.toJson, Json.field, Json.isNull, analyticsTypeDetails]⟩
          · rcases h with h | h
            · exact absurd h hnm
            · exact absurd h hmem

/-- Witness of `analytics_type_validation`: the request `type=weekly` with a bearer
token, as the pipeline passes it to the handler. -/
theorem analytics_type_validation_witness :
    ∃ w1 : ResponseWriter,
      analytics.analyticsHandler sampleEnv (ApplyCORS ResponseWriter.fresh)
        (SetUserContext (analyticsRequest ["weekly"]) (some mockUser)) = some w1 ∧
      (w1.finish.status = 400 ↔
        (queryGet (SetUserContext (analyticsRequest ["weekly"]) (some mockUser)).Query "type"
            ≠ goString "" ∧
          queryGet (SetUserContext (analyticsRequest ["weekly"]) (some mockUser)).Query "type"
            ∉ analyticsTypes.map goString)) ∧
      ((queryGet (SetUserContext (analyticsRequest ["weekly"]) (some mockUser)).Query "type"
            ≠ goString "" ∧
          queryGet (SetUserContext (analyticsRequest ["weekly"]) (some mockUser)).Query "type"
            ∉ analyticsTypes.map goString) →
        w1.finish.body = [errorDoc sampleEnv "Invalid analytics type" analyticsTypeDetails] ∧
        (errorDoc sampleEnv "Invalid analytics type" analyticsTypeDetails).field "details"
          = some (Json.obj [("allowed",
              Json.arr [Json.str "summary", Json.str "category", Json.str "trend"])])) ∧
      (QueryParamMissing (SetUserContext (analyticsRequest ["weekly"]) (some mockUser)) "type" →
        w1 = SuccessResponse sampleEnv (ApplyCORS ResponseWriter.fresh)
          (Json.obj [("summary", analytics.summary.toJson)]) 200) ∧
      ((QueryParamMissing (SetUserContext (analyticsRequest ["weekly"]) (some mockUser)) "type" ∨
          queryGet (SetUserContext (analyticsRequest ["weekly"]) (some mockUser)).Query "type"
            ∈ analyticsTypes.map goString) →
        w1.finish.status = 200) :=
  analytics_type_validation sampleEnv (ApplyCORS ResponseWriter.fresh)
    (SetUserContext (analyticsRequest ["weekly"]) (some mockUser)) (some mockUser) rfl rfl rfl

theorem analytics_route_reaches_handler (env : Env) (r : Request) (hget : r.Method = "GET")
    (hb : IsBearerForm (valuesGet r.Header "Authorization")) :
    analytics.Handler env ResponseWriter.fresh r =
      analytics.analyticsHandler env (ApplyCORS ResponseWriter.fresh)
        (SetUserContext r (some mockUser)) := by
  unfold analytics.Handler
  exact pipeline_reaches_handler env _ _ r rfl rfl (by rw [hget]; decide)
    (by rw [hget]; decide) hb

theorem analytics_weekly_is_400 :
    (analytics.Handler sampleEnv ResponseWriter.fresh (analyticsRequest ["weekly"])).map
      (fun w => w.finish.status) = some 400 ∧
    (analytics.Handler sampleEnv ResponseWriter.fresh (analyticsRequest [])).map
      (fun w => w.finish.status) = some 200 ∧
    (analytics.Handler sampleEnv ResponseWriter.fresh (analyticsRequest ["trend"])).map
      (fun w => w.finish.status) = some 200 := by
  refine ⟨by decide, by decide, by decide⟩

/-! ## C13: the category breakdown against the summary -/

/-- C13, as stated, fails: for the same request but for `type`, the endpoint answers
the category breakdown `analytics.categories` and the summary `analytics.summary`; the
expenses of the breakdown sum to 500, and the summary has total expenses 3000. -/
theorem category_expenses_differ_from_summary :
    (analytics.Handler sampleEnv ResponseWriter.fresh (analyticsRequest ["category"])).map
        (fun w => w.finish.body)
      = some [successDoc sampleEnv (Json.obj [("categories",
          Json.arr (analytics.categories.map CategoryAnalytics.toJson))])] ∧
    (analytics.Handler sampleEnv ResponseWriter.fresh (analyticsRequest ["summary"])).map
        (fun w => w.finish.body)
      = some [successDoc sampleEnv (Json.obj [("summary", analytics.summary.toJson)])] ∧
    (analytics.categories.map (fun c => c.Expenses)).sum = 500 ∧
    analytics.summary.TotalExpenses = 3000 ∧
    (analytics.categories.map (fun c => c.Expenses)).sum ≠ analytics.summary.TotalExpenses := by
  refine ⟨rfl, rfl, ?_, rfl, ?_⟩
  · norm_num [analytics.categories]
  · norm_num [analytics.categories, analytics.summary]

/-- C13, amended: for every user, the endpoint answers the category breakdown
`analytics.categories` for `type=category` and the summary `analytics.summary` for
`type=summary`, and the incomes of the entries of the breakdown sum to the total income
of the summary. -/
theorem category_income_sums_to_summary (env : Env) (w : ResponseWriter)
    (user : Option User) :
    analytics.handleCategoryAnalytics env w user
      = some (SuccessResponse env w (Json.obj [("categories",
          Json.arr (analytics.categories.map CategoryAnalytics.toJson))]) 200) ∧
    analytics.handleSummaryAnalytics env w user
      = some (SuccessResponse env w
          (Json.obj [("summary", analytics.summary.toJson)]) 200) ∧
    (analytics.categories.map (fun c => c.Income)).sum = analytics.summary.TotalIncome := by
  refine ⟨rfl, rfl, ?_⟩
  norm_num [analytics.categories, analytics.summary]

/-! ## C14: the summary -/

/-- C14, as stated, fails: the summary the endpoint answers has transaction count
150, not 2; the handler reads no transaction set. -/
theorem summary_transaction_count_is_150 :
    (analytics.Handler sampleEnv ResponseWriter.fresh (analyticsRequest [])).map
        (fun w => w.finish.body)
      = some [successDoc sampleEnv (Json.obj [("summary", analytics.summary.toJson)])] ∧
    analytics.summary.toJson.field "transactionCount" = some (Json.num 150) ∧
    analytics.summary.TransactionCount = 150 ∧
    analytics.summary.TransactionCount ≠ 2 := by
  refine ⟨rfl, ?_, rfl, by decide⟩
  simp [AnalyticsSummary.toJson, Json.field, analytics.summary]

/-- C14, amended: for every user, the summary the endpoint answers is the fixed value
with total income 5000, total expenses 3000, net savings 2000, savings rate 40 and
transaction count 150; it satisfies netSavings = totalIncome − totalExpenses, and
savingsRate = 0 when totalIncome = 0 and netSavings / totalIncome × 100 otherwise. -/
theorem summary_is_consistent (env : Env) (w : ResponseWriter) (user : Option User) :
    analytics.handleSummaryAnalytics env w user
      = some (SuccessResponse env w
          (Json.obj [("summary", analytics.summary.toJson)]) 200) ∧
    analytics.summary.NetSavings
      = analytics.summary.TotalIncome - analytics.summary.TotalExpenses ∧
    analytics.summary.SavingsRate
      = (if analytics.summary.TotalIncome = 0 then 0
         else analytics.summary.NetSavings / analytics.summary.TotalIncome * 100) ∧
    analytics.summary.TotalIncome = 5000 ∧
    analytics.summary.TotalExpenses = 3000 ∧
    analytics.summary.NetSavings = 2000 ∧
    analytics.summary.SavingsRate = 40 ∧
    analytics.summary.TransactionCount = 150 := by
  refine ⟨rfl, ?_, ?_, rfl, rfl, rfl, rfl, rfl⟩
  · norm_num [analytics.summary]
  · norm_num [analytics.summary]

/-! ## C15: the shape of the bodies -/

end BudgetBuddy
